import Mathlib

/-!
Verification of the ScholarTailor graph assembly and filtering engine.

This file gives a shallow embedding, in Lean 4, of the parts of the
ScholarTailor backend that the specification's claims are about:

* `backend/dao/relationship_dao.py` — relationship storage operations and the
  consolidation of raw relationship rows into display edges
  (`get_scholar_relationsips`, `_get_relation_priority`,
  `create_relationship`, `update_relationship_weight`,
  `create_relationships_batch`);
* `backend/services/data_service.py` — graph assembly (`generate_data`),
  the significance selection of secondary scholars, the dynamic filter
  compiler (`_build_filter_sql`, `_execute_filter_query`,
  `_should_show_all_scholars`) and the filtered subgraph projection
  (`_generate_filtered_network_data`);
* `backend/db/models.py` — the SQLite schema these functions run against
  (used to fix the semantics of the SQL statements they issue).

Database tables are embedded as Lean lists of rows; Python dicts that are
built key by key are embedded as insertion-ordered association lists;
Python's stable `list.sort(reverse=True)` and SQL `ORDER BY ... DESC` are
embedded as a stable descending insertion sort.  SQL statements are embedded
by their semantics against the schema of `backend/db/models.py`; in
particular the `scholars` table of that schema has no `is_hidden` column, so
a query mentioning `s.is_hidden` fails at execution time, which the source
catches and turns into an empty result list.
-/

namespace ScholarTailor

/-! ## Generic helpers: insertion-ordered dictionaries and stable sorting -/

/-- Lookup in an insertion-ordered association list (Python `d[k]` /
`k in d`): the first binding of the key, if any. -/
def dictLookup {α : Type} (m : List (String × α)) (k : String) : Option α :=
  match m with
  | [] => none
  | (k₀, v₀) :: rest => if k₀ = k then some v₀ else dictLookup rest k

/-- Update in an insertion-ordered association list (Python `d[k] = v`):
replace the binding in place if the key is present, otherwise append it. -/
def dictSet {α : Type} (m : List (String × α)) (k : String) (v : α) :
    List (String × α) :=
  match m with
  | [] => [(k, v)]
  | (k₀, v₀) :: rest =>
      if k₀ = k then (k, v) :: rest else (k₀, v₀) :: dictSet rest k v

/-- Insert into a descending-sorted list, after the elements with a strictly
larger key and before equal-keyed ones.  `sortDescBy` inserts earlier list
elements later, so with this strict comparison earlier elements end up before
equal-keyed later ones — the stability of Python `list.sort(reverse=True)`. -/
def insertDescBy {α : Type} (key : α → Int) (x : α) : List α → List α
  | [] => [x]
  | y :: ys => if key y > key x then y :: insertDescBy key x ys else x :: y :: ys

/-- Stable descending sort by an integer key: the embedding of Python's
`list.sort(key=..., reverse=True)` and of SQL `ORDER BY ... DESC` (reading
ties in input order). -/
def sortDescBy {α : Type} (key : α → Int) : List α → List α
  | [] => []
  | x :: xs => insertDescBy key x (sortDescBy key xs)

theorem mem_insertDescBy {α : Type} (key : α → Int) (x : α) (l : List α) (a : α) :
    a ∈ insertDescBy key x l ↔ a = x ∨ a ∈ l := by
  induction l with
  | nil => simp [insertDescBy]
  | cons y ys ih =>
      simp only [insertDescBy]
      split
      · simp only [List.mem_cons, ih]
        tauto
      · simp only [List.mem_cons]

theorem mem_sortDescBy {α : Type} (key : α → Int) (l : List α) (a : α) :
    a ∈ sortDescBy key l ↔ a ∈ l := by
  induction l with
  | nil => simp [sortDescBy]
  | cons x xs ih =>
      simp only [sortDescBy, mem_insertDescBy, List.mem_cons, ih]

theorem dictLookup_dictSet_self {α : Type} (m : List (String × α)) (k : String) (v : α) :
    dictLookup (dictSet m k v) k = some v := by
  induction m with
  | nil => simp [dictLookup, dictSet]
  | cons p rest ih =>
      obtain ⟨k₀, v₀⟩ := p
      by_cases h : k₀ = k
      · simp [dictLookup, dictSet, h]
      · simp [dictLookup, dictSet, h, ih]

theorem dictLookup_dictSet_ne {α : Type} (m : List (String × α)) (k k₁ : String) (v : α)
    (h : k ≠ k₁) : dictLookup (dictSet m k v) k₁ = dictLookup m k₁ := by
  induction m with
  | nil => simp [dictLookup, dictSet, h]
  | cons p rest ih =>
      obtain ⟨k₀, v₀⟩ := p
      by_cases h₀ : k₀ = k
      · subst h₀
        simp [dictLookup, dictSet, h]
      · simp only [dictSet, if_neg h₀]
        by_cases h₁ : k₀ = k₁
        · simp [dictLookup, h₁]
        · simp [dictLookup, h₁, ih]

theorem dictLookup_append_ne {α : Type} (m : List (String × α)) (k k₁ : String) (v : α)
    (h : k ≠ k₁) : dictLookup (m ++ [(k, v)]) k₁ = dictLookup m k₁ := by
  induction m with
  | nil => simp [dictLookup, h]
  | cons p rest ih =>
      obtain ⟨k₀, v₀⟩ := p
      by_cases h₀ : k₀ = k₁
      · simp [dictLookup, h₀]
      · simp [dictLookup, h₀, ih]

theorem dictLookup_append_self_of_none {α : Type} (m : List (String × α)) (k : String) (v : α)
    (h : dictLookup m k = none) : dictLookup (m ++ [(k, v)]) k = some v := by
  induction m with
  | nil => simp [dictLookup]
  | cons p rest ih =>
      obtain ⟨k₀, v₀⟩ := p
      by_cases h₀ : k₀ = k
      · simp [dictLookup, h₀] at h
      · simp only [dictLookup, if_neg h₀] at h
        simp [dictLookup, h₀, ih h]

/-! ## Relationship consolidation (`relationship_dao.get_scholar_relationsips`) -/

/-- One row of the `relationships` table (`backend/db/models.py`; the
autoincrement surrogate key and the unused JSON `data` column are omitted). -/
structure RelRow where
  source_id : String
  source_type : String
  target_id : String
  target_type : String
  relation_type : String
  weight : Int
  is_custom : Bool
deriving DecidableEq

/-- One row of the collaborator query issued by `get_scholar_relationsips`:
`SELECT r.target_id AS scholar_id, r.weight AS collaboration_count,
r.relation_type FROM relationships r WHERE ...`. -/
structure Row where
  scholar_id : String
  collaboration_count : Int
  relation_type : String
deriving DecidableEq

/-- One consolidated record of `get_scholar_relationsips`. -/
structure Collab where
  scholar_id : String
  collaboration_count : Int
  relation_type : String
  all_relation_types : List String
deriving DecidableEq

/-- Embedding of `RelationshipDao._get_relation_priority`:
`{"advisor": 1, "colleague": 2, "coauthor": 3}.get(relation_type, 999)`. -/
def relationPriority (t : String) : Nat :=
  if t = "advisor" then 1
  else if t = "colleague" then 2
  else if t = "coauthor" then 3
  else 999

/-- The record created on first sight of a target scholar. -/
def initCollab (r : Row) : Collab :=
  { scholar_id := r.scholar_id
    collaboration_count := r.collaboration_count
    relation_type := r.relation_type
    all_relation_types := [r.relation_type] }

/-- The update applied when another row for an already-seen target arrives:
append the relation type to `all_relation_types`, switch the label if the new
type has strictly higher priority, and keep the larger weight.  The source
performs these three updates in sequence on the same dict entry; they touch
disjoint fields (the weight comparison reads `collaboration_count`, which the
other two updates leave alone, and the priority comparison reads the label
before it is overwritten), so the record below is their combined effect. -/
def updateCollab (c : Collab) (t : String) (w : Int) : Collab :=
  { scholar_id := c.scholar_id
    collaboration_count :=
      if w > c.collaboration_count then w else c.collaboration_count
    relation_type :=
      if relationPriority t < relationPriority c.relation_type then t
      else c.relation_type
    all_relation_types := c.all_relation_types ++ [t] }

/-- One iteration of the grouping loop of `get_scholar_relationsips` over the
`target_relationships` dict: rows with a falsy (empty) target id are skipped. -/
def groupStep (m : List (String × Collab)) (r : Row) : List (String × Collab) :=
  if r.scholar_id = "" then m
  else
    match dictLookup m r.scholar_id with
    | none => m ++ [(r.scholar_id, initCollab r)]
    | some c => dictSet m r.scholar_id (updateCollab c r.relation_type r.collaboration_count)

/-- The `target_relationships` dict built by `get_scholar_relationsips` from
the raw query rows, as an insertion-ordered association list. -/
def target_relationships (rows : List Row) : List (String × Collab) :=
  rows.foldl groupStep []

/-- The tail of `get_scholar_relationsips`: take the grouped records, sort
them by weight descending (Python's stable sort) and apply the
`[offset : offset + limit]` slice. -/
def consolidate (rows : List Row) (limit offset : Nat) : List Collab :=
  let collaborators := (target_relationships rows).map Prod.snd
  let sorted := sortDescBy (fun c => c.collaboration_count) collaborators
  (sorted.drop offset).take limit

/-- The raw relationship rows fetched by `get_scholar_relationsips` for a
scholar: `WHERE r.source_id = ? AND r.source_type = 'scholar' AND
r.target_type = 'scholar' ORDER BY r.weight DESC`.  Note the query constrains
only `source_id`; there is no disjunct for `target_id`. -/
def fetched_rel_rows (tbl : List RelRow) (sid : String) : List RelRow :=
  sortDescBy (fun r => r.weight)
    (tbl.filter (fun r =>
      r.source_id == sid && r.source_type == "scholar" && r.target_type == "scholar"))

/-- The row set handed to the consolidation loop, in query column aliases. -/
def fetch_scholar_relations (tbl : List RelRow) (sid : String) : List Row :=
  (fetched_rel_rows tbl sid).map
    (fun r => { scholar_id := r.target_id
                collaboration_count := r.weight
                relation_type := r.relation_type })

/-! ## Characterization of the consolidation loop -/

/-- The raw rows of a given target scholar, in arrival order. -/
def rowsFor (rows : List Row) (t : String) : List Row :=
  rows.filter (fun r => r.scholar_id == t)

/-- The effect of one grouping iteration on a single key of the dict. -/
def accStep : Option Collab → Row → Option Collab
  | none, r => some (initCollab r)
  | some c, r => some (updateCollab c r.relation_type r.collaboration_count)

theorem mem_rowsFor (rows : List Row) (t : String) (r : Row) :
    r ∈ rowsFor rows t ↔ r ∈ rows ∧ r.scholar_id = t := by
  simp [rowsFor, List.mem_filter]

theorem rowsFor_cons (rows : List Row) (t : String) (r : Row) :
    rowsFor (r :: rows) t =
      if r.scholar_id = t then r :: rowsFor rows t else rowsFor rows t := by
  by_cases h : r.scholar_id = t <;> simp [rowsFor, List.filter_cons, h]

/-- What one grouping iteration does to the dict entry of an arbitrary key. -/
theorem dictLookup_groupStep (m : List (String × Collab)) (r : Row) (t : String)
    (ht : t ≠ "") :
    dictLookup (groupStep m r) t =
      if r.scholar_id = t then accStep (dictLookup m t) r else dictLookup m t := by
  by_cases hr : r.scholar_id = t
  · subst hr
    simp only [groupStep, if_neg ht, if_pos rfl]
    cases hm : dictLookup m r.scholar_id with
    | none => rw [dictLookup_append_self_of_none _ _ _ hm]; rfl
    | some c => rw [dictLookup_dictSet_self]; rfl
  · rw [if_neg hr]
    simp only [groupStep]
    by_cases hz : r.scholar_id = ""
    · simp [hz]
    · rw [if_neg hz]
      cases hm : dictLookup m r.scholar_id with
      | none => exact dictLookup_append_ne _ _ _ _ hr
      | some c => exact dictLookup_dictSet_ne _ _ _ _ hr

/-- The grouping fold, restricted to one key, is the per-key fold over the
rows of that key. -/
theorem dictLookup_target_fold (rows : List Row) (m : List (String × Collab))
    (t : String) (ht : t ≠ "") :
    dictLookup (rows.foldl groupStep m) t =
      (rowsFor rows t).foldl accStep (dictLookup m t) := by
  induction rows generalizing m with
  | nil => rfl
  | cons r rest ih =>
      simp only [List.foldl_cons]
      rw [ih (groupStep m r), dictLookup_groupStep m r t ht, rowsFor_cons]
      by_cases hr : r.scholar_id = t <;> simp [hr]

theorem updateCollab_scholar_id (c : Collab) (t : String) (w : Int) :
    (updateCollab c t w).scholar_id = c.scholar_id := rfl

theorem updateCollab_all_types (c : Collab) (t : String) (w : Int) :
    (updateCollab c t w).all_relation_types = c.all_relation_types ++ [t] := rfl

theorem updateCollab_relation_type (c : Collab) (t : String) (w : Int) :
    ((updateCollab c t w).relation_type = c.relation_type ∨
       (updateCollab c t w).relation_type = t) ∧
    relationPriority (updateCollab c t w).relation_type ≤ relationPriority c.relation_type ∧
    relationPriority (updateCollab c t w).relation_type ≤ relationPriority t := by
  simp only [updateCollab]
  split <;> rename_i h
  · exact ⟨Or.inr rfl, le_of_lt h, le_refl _⟩
  · exact ⟨Or.inl rfl, le_refl _, le_of_not_lt h⟩

theorem updateCollab_weight (c : Collab) (t : String) (w : Int) :
    ((updateCollab c t w).collaboration_count = c.collaboration_count ∨
       (updateCollab c t w).collaboration_count = w) ∧
    c.collaboration_count ≤ (updateCollab c t w).collaboration_count ∧
    w ≤ (updateCollab c t w).collaboration_count := by
  simp only [updateCollab]
  split <;> rename_i h
  · exact ⟨Or.inr rfl, le_of_lt h, le_refl _⟩
  · exact ⟨Or.inl rfl, le_refl _, le_of_not_lt h⟩

/-- The per-key fold started from a record `c` consolidates as described:
the label has the best (smallest) priority seen, the weight is the largest
seen, and the relation-type list accumulates every arriving type. -/
theorem accStep_foldl_spec (rs : List Row) (c : Collab) :
    ∃ d, rs.foldl accStep (some c) = some d ∧
      d.scholar_id = c.scholar_id ∧
      d.all_relation_types =
        c.all_relation_types ++ rs.map (fun r => r.relation_type) ∧
      (d.relation_type = c.relation_type ∨
        d.relation_type ∈ rs.map (fun r => r.relation_type)) ∧
      relationPriority d.relation_type ≤ relationPriority c.relation_type ∧
      (∀ r ∈ rs, relationPriority d.relation_type ≤ relationPriority r.relation_type) ∧
      (d.collaboration_count = c.collaboration_count ∨
        d.collaboration_count ∈ rs.map (fun r => r.collaboration_count)) ∧
      c.collaboration_count ≤ d.collaboration_count ∧
      (∀ r ∈ rs, r.collaboration_count ≤ d.collaboration_count) := by
  induction rs generalizing c with
  | nil =>
      exact ⟨c, rfl, rfl, by simp, Or.inl rfl, le_refl _, by simp, Or.inl rfl,
        le_refl _, by simp⟩
  | cons r rest ih =>
      obtain ⟨d, hfold, hsid, htypes, hrt, hrtc, hrtall, hcc, hccc, hccall⟩ :=
        ih (updateCollab c r.relation_type r.collaboration_count)
      obtain ⟨hurt, hurtc, hurtt⟩ := updateCollab_relation_type c r.relation_type r.collaboration_count
      obtain ⟨hucc, huccc, huccw⟩ := updateCollab_weight c r.relation_type r.collaboration_count
      refine ⟨d, hfold, ?_, ?_, ?_, ?_, ?_, ?_, ?_, ?_⟩
      · rw [hsid, updateCollab_scholar_id]
      · rw [htypes, updateCollab_all_types]
        simp
      · rcases hrt with h | h
        · rw [h]
          rcases hurt with h₂ | h₂
          · exact Or.inl h₂
          · exact Or.inr (by simp [h₂])
        · exact Or.inr (by simp [h])
      · exact le_trans hrtc hurtc
      · intro r₂ hr₂
        rcases List.mem_cons.mp hr₂ with h | h
        · subst h; exact le_trans hrtc hurtt
        · exact hrtall r₂ h
      · rcases hcc with h | h
        · rw [h]
          rcases hucc with h₂ | h₂
          · exact Or.inl h₂
          · exact Or.inr (by simp [h₂])
        · exact Or.inr (by simp [h])
      · exact le_trans huccc hccc
      · intro r₂ hr₂
        rcases List.mem_cons.mp hr₂ with h | h
        · subst h; exact le_trans huccw hccc
        · exact hccall r₂ h

/-- Full characterization of one consolidated record of
`get_scholar_relationsips`: for every (non-empty) target id occurring in the
raw row set, the grouped dict holds a record whose label attains the minimal
priority among the observed relation types, whose weight is the maximum
weight observed, and whose `all_relation_types` is exactly the list of
observed types in arrival order. -/
theorem target_relationships_spec (rows : List Row) (t : String) (ht : t ≠ "")
    (hmem : ∃ r ∈ rows, r.scholar_id = t) :
    ∃ c, dictLookup (target_relationships rows) t = some c ∧
      c.scholar_id = t ∧
      c.all_relation_types = (rowsFor rows t).map (fun r => r.relation_type) ∧
      c.relation_type ∈ (rowsFor rows t).map (fun r => r.relation_type) ∧
      (∀ r ∈ rowsFor rows t,
        relationPriority c.relation_type ≤ relationPriority r.relation_type) ∧
      c.collaboration_count ∈ (rowsFor rows t).map (fun r => r.collaboration_count) ∧
      (∀ r ∈ rowsFor rows t, r.collaboration_count ≤ c.collaboration_count) := by
  have hlook : dictLookup (target_relationships rows) t =
      (rowsFor rows t).foldl accStep none :=
    dictLookup_target_fold rows [] t ht
  obtain ⟨r₀, hr₀, hid₀⟩ := hmem
  have hne : rowsFor rows t ≠ [] := by
    intro h
    have := (mem_rowsFor rows t r₀).mpr ⟨hr₀, hid₀⟩
    rw [h] at this
    exact absurd this (List.not_mem_nil r₀)
  obtain ⟨r₁, rs, hcons⟩ := List.exists_cons_of_ne_nil hne
  have hr₁ : r₁ ∈ rowsFor rows t := by rw [hcons]; exact List.mem_cons_self r₁ rs
  have hid₁ : r₁.scholar_id = t := ((mem_rowsFor rows t r₁).mp hr₁).2
  obtain ⟨d, hfold, hsid, htypes, hrt, hrtc, hrtall, hcc, hccc, hccall⟩ :=
    accStep_foldl_spec rs (initCollab r₁)
  refine ⟨d, ?_, ?_, ?_, ?_, ?_, ?_, ?_⟩
  · rw [hlook, hcons]
    simpa [accStep] using hfold
  · rw [hsid, initCollab, hid₁]
  · rw [htypes, hcons]
    simp [initCollab]
  · rw [hcons]
    rcases hrt with h | h
    · simp [initCollab] at h
      simp [h]
    · simp
      right
      simpa using h
  · intro r₂ hr₂
    rw [hcons] at hr₂
    rcases List.mem_cons.mp hr₂ with h | h
    · subst h
      simpa [initCollab] using hrtc
    · exact hrtall r₂ h
  · rw [hcons]
    rcases hcc with h | h
    · simp [initCollab] at h
      simp [h]
    · simp
      right
      simpa using h
  · intro r₂ hr₂
    rw [hcons] at hr₂
    rcases List.mem_cons.mp hr₂ with h | h
    · subst h
      simpa [initCollab] using hccc
    · exact hccall r₂ h

/-! ## Data model rows for the data service (`backend/db/models.py`) -/

/-- A JSON-ish value as it appears in node `data` payloads. -/
inductive NodeVal where
  | s (v : String)
  | i (v : Int)
  | b (v : Bool)
  | ls (v : List String)
deriving DecidableEq

/-- One row of the `scholars` table.  Columns that none of the embedded code
reads (`email_domain`, `citedby5y`, `hindex5y`, `i10index5y`,
`cites_per_year`, the public-access counters, `last_updated`) are omitted.
Note the schema has no `is_hidden` column. -/
structure ScholarRow where
  scholar_id : String
  affiliation : String
  homepage : String
  url_picture : String
  citedby : Int
  hindex : Int
  i10index : Int
  is_main_scholar : Int
deriving DecidableEq

/-- One row of the `entities` table; `name` is `NOT NULL` in the schema, so
it is total here, and `data` is the JSON dict as parsed by `EntityDao`
(an empty list stands for `NULL`/unparseable/empty). -/
structure EntityRow where
  id : String
  type : String
  name : String
  data : List (String × NodeVal)
deriving DecidableEq

/-- One row of the `interests` table. -/
structure InterestRow where
  entity_id : String
  interest : String
  is_custom : Bool
deriving DecidableEq

/-- One row of the `publications` table (columns the filter compiler reads). -/
structure PubRow where
  cites_id : String
  title : String
  year : Int
  venue : String
  num_citations : Int
deriving DecidableEq

/-- One row of the `authorship` table (scholar_id, cites_id). -/
structure AuthRow where
  scholar_id : String
  cites_id : String
deriving DecidableEq

/-- One row of the `institutions` table (columns the filter compiler reads;
the schema column holding the institution kind is named `type`, while the
compiled query refers to `i.inst_type`, a column that does not exist). -/
structure InstRow where
  inst_id : String
  name : String
  type : String
  country : String
deriving DecidableEq

/-- One row of the `scholar_institutions` table. -/
structure ScholarInstRow where
  scholar_id : String
  inst_id : String
deriving DecidableEq

/-- The relational store the service reads from. -/
structure Env where
  scholars : List ScholarRow
  entities : List EntityRow
  interests : List InterestRow
  relationships : List RelRow
  publications : List PubRow
  authorship : List AuthRow
  institutions : List InstRow
  scholar_institutions : List ScholarInstRow

/-! ## DAO reads used by the data service -/

/-- `EntityDao.get_entity_by_id`: `SELECT * FROM entities WHERE id = ?`
(first row). -/
def get_entity_by_id (env : Env) (eid : String) : Option EntityRow :=
  env.entities.find? (fun e => e.id == eid)

/-- `ScholarDao.get_scholar_by_id`: `SELECT * FROM scholars WHERE
scholar_id = ?` (first row). -/
def get_scholar_by_id (env : Env) (sid : String) : Option ScholarRow :=
  env.scholars.find? (fun s => s.scholar_id == sid)

/-- `InterestDao.get_entity_interests`: `SELECT * FROM interests WHERE
entity_id = ? ORDER BY is_custom DESC`. -/
def get_entity_interests (env : Env) (eid : String) : List InterestRow :=
  sortDescBy (fun r => if r.is_custom then 1 else 0)
    (env.interests.filter (fun r => r.entity_id == eid))

/-- `ScholarDao.get_main_scholars`: `SELECT s.*, e.name FROM scholars s JOIN
entities e ON s.scholar_id = e.id WHERE s.is_main_scholar = 1 LIMIT 100` —
only role 1 is returned, and a scholar row without an entity row is dropped
by the join. -/
def get_main_scholars (env : Env) : List ScholarRow :=
  ((env.scholars.filter (fun s => s.is_main_scholar == 1)).flatMap
    (fun s => (env.entities.filter (fun e => e.id == s.scholar_id)).map
      (fun _ => s))).take 100

/-- `RelationshipDao.get_scholar_relationsips` with its default
`limit=1000, offset=0`: fetch the (source-direction) rows and consolidate. -/
def get_scholar_relationsips (env : Env) (sid : String) : List Collab :=
  consolidate (fetch_scholar_relations env.relationships sid) 1000 0

/-! ## Graph shape -/

structure Node where
  id : String
  label : String
  group : String
  data : List (String × NodeVal)
deriving DecidableEq

/-- A display edge; `all_relations` embeds the optional
`edge["data"]["all_relations"]` payload. -/
structure Edge where
  source : String
  target : String
  label : String
  weight : Int
  all_relations : Option (List String)
deriving DecidableEq

structure Network where
  nodes : List Node
  edges : List Edge
deriving DecidableEq

/-! ## Graph assembly (`DataService.generate_data`) -/

/-- Merge the entity's parsed JSON `data` dict into a node's `data` dict
(`for key, value in entity_data.items(): node["data"][key] = value`),
guarded by the truthiness check `if entity.get("data")`. -/
def mergeEntityData (base : List (String × NodeVal)) (e : EntityRow) :
    List (String × NodeVal) :=
  if e.data.isEmpty then base
  else e.data.foldl (fun acc kv => dictSet acc kv.1 kv.2) base

/-- Python `set.add`, with the set embedded as an insertion-ordered
duplicate-free list. -/
def addId (ids : List String) (x : String) : List String :=
  if x ∈ ids then ids else ids ++ [x]

/-- The node `data` payload built by `generate_data` for a scholar. -/
def scholarNodeData (s : ScholarRow) (name : String)
    (interests : List InterestRow) (secondary : Bool) :
    List (String × NodeVal) :=
  [("id", .s s.scholar_id), ("name", .s name),
   ("affiliation", .s s.affiliation),
   ("interests", .ls (interests.map (fun r => r.interest))),
   ("scholar_id", .s s.scholar_id), ("is_secondary", .b secondary),
   ("citedby", .i s.citedby), ("hindex", .i s.hindex),
   ("i10index", .i s.i10index), ("url_picture", .s s.url_picture),
   ("homepage", .s s.homepage)]

/-- One iteration of the primary-node loop of `generate_data`: resolve the
entity record (skip the scholar if it is missing; the `"name" not in entity`
check of the source can never fire because `entities.name` is `NOT NULL`),
fetch interests and build the node. -/
def mkPrimaryNode (env : Env) (s : ScholarRow) : Option Node :=
  match get_entity_by_id env s.scholar_id with
  | none => none
  | some e =>
      let interests := get_entity_interests env s.scholar_id
      some { id := s.scholar_id, label := e.name, group := "primary",
             data := mergeEntityData (scholarNodeData s e.name interests false) e }

/-- The primary-node loop: accumulates the `nodes` list and the
`main_scholar_ids` set (in insertion order). -/
def primaryPhase (env : Env) (ms : List ScholarRow) : List Node × List String :=
  ms.foldl (fun acc s =>
    match mkPrimaryNode env s with
    | none => acc
    | some n => (acc.1 ++ [n], addId acc.2 s.scholar_id)) ([], [])

/-- State of the relationship-collection loop of `generate_data`. -/
structure EdgeState where
  all_edges : List Edge
  conn : List (String × Nat)
  notInterested : List String

/-- `if target_id not in secondary_scholar_connections: ...[target_id] = 0`
followed by `...[target_id] += 1`. -/
def connIncr (m : List (String × Nat)) (k : String) : List (String × Nat) :=
  match dictLookup m k with
  | none => m ++ [(k, 1)]
  | some n => dictSet m k (n + 1)

/-- The edge dict built from one consolidated relationship record; the
`data.all_relations` payload is attached when more than one relation type
was observed. -/
def relEdge (sid : String) (rel : Collab) : Edge :=
  { source := sid, target := rel.scholar_id, label := rel.relation_type,
    weight := rel.collaboration_count,
    all_relations :=
      if rel.all_relation_types.length > 1 then some rel.all_relation_types
      else none }

/-- One iteration of the relationship-collection loop: the edge is recorded
unconditionally; then, for non-primary targets, the not-interested cache and
the scholar record decide whether the target's connectivity is counted (a
target found to have role 2 is cached and not counted when hiding). -/
def edgeStepRel (env : Env) (hide : Bool) (mainIds : List String) (sid : String)
    (st : EdgeState) (rel : Collab) : EdgeState :=
  let st₁ : EdgeState := { st with all_edges := st.all_edges ++ [relEdge sid rel] }
  let target := rel.scholar_id
  if target ∈ mainIds then st₁
  else if hide ∧ target ∈ st₁.notInterested then st₁
  else
    match get_scholar_by_id env target with
    | some tsc =>
        if hide ∧ tsc.is_main_scholar = 2 then
          { st₁ with notInterested := st₁.notInterested ++ [target] }
        else { st₁ with conn := connIncr st₁.conn target }
    | none => { st₁ with conn := connIncr st₁.conn target }

/-- The relationship-collection loop over all primary scholars. -/
def edgePhase (env : Env) (hide : Bool) (mainIds : List String)
    (cache0 : List String) : EdgeState :=
  mainIds.foldl
    (fun st sid =>
      (get_scholar_relationsips env sid).foldl (edgeStepRel env hide mainIds sid) st)
    { all_edges := [], conn := [], notInterested := cache0 }

/-- The significance selection of `generate_data`: show every connected
secondary scholar when there are fewer than 20 primary scholars, otherwise
only those with more than 2 connections, falling back to all of them when
none passes the strict threshold. -/
def selectSignificant (total : Nat) (conn : List (String × Nat)) :
    List (String × Nat) :=
  if total < 20 then conn
  else
    let high := conn.filter (fun p => decide (p.2 > 2))
    if high.isEmpty then conn else high

/-- One iteration of the secondary-node loop of `generate_data`. -/
def mkSecondaryNode (env : Env) (hide : Bool) (cache : List String)
    (sid : String) : Option Node :=
  if hide ∧ sid ∈ cache then none
  else
    match get_scholar_by_id env sid with
    | none => none
    | some sc =>
        if hide ∧ sc.is_main_scholar = 2 then none
        else
          match get_entity_by_id env sid with
          | none => none
          | some e =>
              let interests := get_entity_interests env sid
              some { id := sid, label := e.name, group := "secondary",
                     data := mergeEntityData (scholarNodeData sc e.name interests true) e }

/-- The final step of `generate_data`: keep only the edges whose two
endpoints are both among the ids of the selected nodes
(`valid_node_ids = {node["id"] for node in nodes}`). -/
def assembleNetwork (nodes : List Node) (all_edges : List Edge) : Network :=
  { nodes := nodes
    edges := all_edges.filter (fun e =>
      (nodes.map (fun n => n.id)).contains e.source &&
      (nodes.map (fun n => n.id)).contains e.target) }

/-- Embedding of `DataService.generate_data`.  Failure dicts
(`{"success": False, "error": ...}`) are embedded as `Except.error`; the
source's Chinese error strings are rendered in English. -/
def generate_data (env : Env) (hide : Bool) : Except String Network :=
  let main0 := get_main_scholars env
  if main0.isEmpty then Except.error "no main scholar data found"
  else
    let cache0 := (main0.filter (fun s => hide && s.is_main_scholar == 2)).map
      (fun s => s.scholar_id)
    let filtered := main0.filter (fun s => !(hide && s.is_main_scholar == 2))
    if filtered.isEmpty then Except.error "no main scholar data after filtering"
    else
      let pr := primaryPhase env filtered
      if pr.1.isEmpty then Except.error "no valid nodes generated"
      else
        let st := edgePhase env hide pr.2 cache0
        let sig := selectSignificant pr.2.length st.conn
        let nodesS := (sig.map Prod.fst).filterMap (mkSecondaryNode env hide st.notInterested)
        Except.ok (assembleNetwork (pr.1 ++ nodesS) st.all_edges)

/-! ## Python option values (for the filter parameter dicts) -/

/-- The Python values that travel through the filter option bag. -/
inductive PyVal where
  | vStr (s : String)
  | vInt (n : Int)
  | vBool (b : Bool)
  | vNone
deriving DecidableEq

/-- A Python dict of option values. -/
abbrev PyDict := List (String × PyVal)

/-- `d.get(k, dflt)`. -/
def pyGet (d : PyDict) (k : String) (dflt : PyVal) : PyVal :=
  match dictLookup d k with
  | some v => v
  | none => dflt

/-- Python truthiness of an option value. -/
def pyTruthy : PyVal → Bool
  | .vStr s => !(s == "")
  | .vInt n => !(n == 0)
  | .vBool b => b
  | .vNone => false

/-! ## Filtered subgraph projection (`_generate_filtered_network_data`) -/

/-- The filtered projection reads `scholar.get("is_hidden")`.  The `scholars`
table of `backend/db/models.py` has no `is_hidden` column, so the row dict
returned by `SELECT * FROM scholars` never carries the key, the lookup
yields `None`, and both comparisons `== 1` against it are always false. -/
def scholar_is_hidden (_s : ScholarRow) : Bool := false

/-- The group assigned to a node of the filtered projection. -/
def filteredGroup (sc : ScholarRow) : String :=
  if sc.is_main_scholar = 1 then "primary"
  else if scholar_is_hidden sc then "not-interested"
  else "secondary"

/-- The node `data` payload built by `_generate_filtered_network_data`
(`scholar.get("is_hidden", 0)` is always the default `0`). -/
def filteredNodeData (s : ScholarRow) (name : String)
    (interests : List InterestRow) : List (String × NodeVal) :=
  [("id", .s s.scholar_id), ("name", .s name),
   ("affiliation", .s s.affiliation),
   ("interests", .ls (interests.map (fun r => r.interest))),
   ("scholar_id", .s s.scholar_id),
   ("is_main_scholar", .i s.is_main_scholar), ("is_hidden", .i 0),
   ("is_secondary", .b (!(s.is_main_scholar == 1))),
   ("citedby", .i s.citedby), ("hindex", .i s.hindex),
   ("i10index", .i s.i10index), ("url_picture", .s s.url_picture),
   ("homepage", .s s.homepage)]

/-- One iteration of the node loop of `_generate_filtered_network_data`
(ids are strings already, so the `str()` conversion and the `None` skip have
no effect here). -/
def mkFilteredNode (env : Env) (hide : Bool) (sid : String) : Option Node :=
  match get_scholar_by_id env sid with
  | none => none
  | some sc =>
      if hide ∧ scholar_is_hidden sc then none
      else
        match get_entity_by_id env sid with
        | none => none
        | some e =>
            some { id := sid, label := e.name, group := filteredGroup sc,
                   data := mergeEntityData
                     (filteredNodeData sc e.name (get_entity_interests env sid)) e }

/-- The node loop: accumulates `nodes` and the `valid_scholar_ids` set. -/
def filteredNodesPhase (env : Env) (hide : Bool) (ids : List String) :
    List Node × List String :=
  ids.foldl (fun acc sid =>
    match mkFilteredNode env hide sid with
    | none => acc
    | some n => (acc.1 ++ [n], addId acc.2 sid)) ([], [])

/-- The relation-type display filter, with its default-to-all fallback. -/
def relationFilters (params : PyDict) : List String :=
  let f :=
    (if pyTruthy (pyGet params "showCoauthor" (.vBool true)) then ["coauthor"] else []) ++
    (if pyTruthy (pyGet params "showAdvisor" (.vBool true)) then ["advisor"] else []) ++
    (if pyTruthy (pyGet params "showColleague" (.vBool true)) then ["colleague"] else [])
  if f.isEmpty then ["coauthor", "advisor", "colleague"] else f

/-- One iteration of the edge loop of `_generate_filtered_network_data`:
keep an edge only when the target is among the materialized scholar ids and
the label passes the relation-type filter, de-duplicating on the
`f"{min(source,target)}-{max(source,target)}"` key. -/
def filteredEdgeStep (validIds : List String) (rf : List String) (sid : String)
    (acc : List Edge × List String) (rel : Collab) : List Edge × List String :=
  let target := rel.scholar_id
  if target = "" then acc
  else if target ∈ validIds ∧ rel.relation_type ∈ rf then
    let key := min sid target ++ "-" ++ max sid target
    if key ∈ acc.2 then acc
    else (acc.1 ++ [relEdge sid rel], acc.2 ++ [key])
  else acc

/-- Embedding of `DataService._generate_filtered_network_data`. -/
def _generate_filtered_network_data (env : Env) (scholar_ids : List String)
    (params : PyDict) : Network :=
  let hide := pyTruthy (pyGet params "hide_not_interested" (.vBool true))
  if scholar_ids.isEmpty then { nodes := [], edges := [] }
  else
    let pr := filteredNodesPhase env hide scholar_ids
    if pr.1.isEmpty then { nodes := [], edges := [] }
    else
      let rf := relationFilters params
      let res := pr.2.foldl
        (fun acc sid =>
          (get_scholar_relationsips env sid).foldl (filteredEdgeStep pr.2 rf sid) acc)
        ([], [])
      { nodes := pr.1, edges := res.1 }

/-! ## The predicate filter compiler (`_build_filter_sql`) -/

/-- Python `v > n` (and friends) against an int literal: `bool` is an `int`
subclass (`True` counts as 1), while comparing a `str` or `None` with an
`int` raises `TypeError`. -/
def pyGtInt (v : PyVal) (n : Int) : Except String Bool :=
  match v with
  | .vInt m => Except.ok (decide (m > n))
  | .vBool b => Except.ok (decide ((if b then (1 : Int) else 0) > n))
  | .vStr _ => Except.error "TypeError"
  | .vNone => Except.error "TypeError"

def pyLtInt (v : PyVal) (n : Int) : Except String Bool :=
  match v with
  | .vInt m => Except.ok (decide (m < n))
  | .vBool b => Except.ok (decide ((if b then (1 : Int) else 0) < n))
  | .vStr _ => Except.error "TypeError"
  | .vNone => Except.error "TypeError"

def pyGeInt (v : PyVal) (n : Int) : Except String Bool :=
  match v with
  | .vInt m => Except.ok (decide (m ≥ n))
  | .vBool b => Except.ok (decide ((if b then (1 : Int) else 0) ≥ n))
  | .vStr _ => Except.error "TypeError"
  | .vNone => Except.error "TypeError"

/-- Python `str(v)`, as used by the f-string parameter interpolations. -/
def pyFormat : PyVal → String
  | .vStr s => s
  | .vInt n => toString n
  | .vBool b => if b then "True" else "False"
  | .vNone => "None"

/-- The publication-join `WHERE` clauses of `_build_filter_sql`. -/
inductive PubCond where
  | venueLike (pat : String)
  | venueEq (v : PyVal)
  | yearGe (v : PyVal)
  | yearLe (v : PyVal)
  | yearEq (v : PyVal)
  | titleLike (pat : String)
  | titleEq (v : PyVal)
  | citGe (v : PyVal)
  | citLe (v : PyVal)
  | citEq (v : PyVal)
deriving DecidableEq

/-- The institution-join `WHERE` clauses; `typeEq` is the clause
`i.inst_type = ?`, which names a column the `institutions` table does not
have (its column is `type`). -/
inductive InstCond where
  | countryLike (pat : String)
  | countryEq (v : PyVal)
  | typeEq (v : PyVal)
deriving DecidableEq

/-- The `WHERE` clauses `_build_filter_sql` can emit, in semantic form.
`hideHiddenScholars` is `(s.is_hidden = 0 OR s.is_hidden IS NULL)`, which
names a column the `scholars` table does not have. -/
inductive Cond where
  | scholarIdNotNull
  | hideHiddenScholars
  | interestLike (pat : String)
  | interestEq (v : PyVal)
  | tagViaInterests (v : PyVal)
  | affLike (pat : String)
  | affEq (v : PyVal)
  | affStarts (pat : String)
  | citedGe (v : PyVal)
  | citedLe (v : PyVal)
  | citedEq (v : PyVal)
  | hGe (v : PyVal)
  | hLe (v : PyVal)
  | hEq (v : PyVal)
  | pub (cs : List PubCond)
  | inst (cs : List InstCond)
  | nodeTypes (primary secondary : Bool)
  | minConn (v : PyVal)
deriving DecidableEq

/-- The condition-building body of `_build_filter_sql`, embedded as an
`Except` because a malformed option value makes one of the source's
comparisons raise `TypeError`.  Clauses are recorded in the order the source
appends them.  The `tagFilter` branch first looks for a table whose name
contains `tag` in `sqlite_master`; the schema of `backend/db/models.py`
defines none, so that branch always falls back to the `interests` table. -/
def build_core (p : PyDict) : Except String (List Cond) := do
  let c := [Cond.scholarIdNotNull]
  let c := if pyGet p "hideNotInterested" .vNone = .vBool true then
      c ++ [Cond.hideHiddenScholars] else c
  let c := if pyTruthy (pyGet p "interestKeyword" .vNone) then
      c ++ [Cond.interestLike (pyFormat (pyGet p "interestKeyword" .vNone))] else c
  let c := if pyTruthy (pyGet p "interestKeywordEquals" .vNone) then
      c ++ [Cond.interestEq (pyGet p "interestKeywordEquals" .vNone)] else c
  let c := if pyTruthy (pyGet p "tagFilter" .vNone) then
      c ++ [Cond.tagViaInterests (pyGet p "tagFilter" .vNone)] else c
  let c := if pyTruthy (pyGet p "affiliationKeyword" .vNone) then
      c ++ [Cond.affLike (pyFormat (pyGet p "affiliationKeyword" .vNone))] else c
  let c := if pyTruthy (pyGet p "affiliationKeywordEquals" .vNone) then
      c ++ [Cond.affEq (pyGet p "affiliationKeywordEquals" .vNone)] else c
  let c := if pyTruthy (pyGet p "affiliationKeywordStartsWith" .vNone) then
      c ++ [Cond.affStarts (pyFormat (pyGet p "affiliationKeywordStartsWith" .vNone))] else c
  let g ← pyGtInt (pyGet p "minCitations" (.vInt 0)) 0
  let c := if g then c ++ [Cond.citedGe (pyGet p "minCitations" (.vInt 0))] else c
  let g ← pyGtInt (pyGet p "minCitationsLt" (.vInt 0)) 0
  let c := if g then c ++ [Cond.citedLe (pyGet p "minCitationsLt" (.vInt 0))] else c
  let g ← pyGtInt (pyGet p "minCitationsEq" (.vInt 0)) 0
  let c := if g then c ++ [Cond.citedEq (pyGet p "minCitationsEq" (.vInt 0))] else c
  let g ← pyGtInt (pyGet p "minHIndex" (.vInt 0)) 0
  let c := if g then c ++ [Cond.hGe (pyGet p "minHIndex" (.vInt 0))] else c
  let g ← pyGtInt (pyGet p "minHIndexLt" (.vInt 0)) 0
  let c := if g then c ++ [Cond.hLe (pyGet p "minHIndexLt" (.vInt 0))] else c
  let g ← pyGtInt (pyGet p "minHIndexEq" (.vInt 0)) 0
  let c := if g then c ++ [Cond.hEq (pyGet p "minHIndexEq" (.vInt 0))] else c
  let pc : List PubCond := []
  let pc := if pyTruthy (pyGet p "venueKeyword" .vNone) then
      pc ++ [PubCond.venueLike (pyFormat (pyGet p "venueKeyword" .vNone))] else pc
  let pc := if pyTruthy (pyGet p "venueKeywordEquals" .vNone) then
      pc ++ [PubCond.venueEq (pyGet p "venueKeywordEquals" .vNone)] else pc
  let g ← pyGtInt (pyGet p "yearFrom" (.vInt 0)) 0
  let pc := if g then pc ++ [PubCond.yearGe (pyGet p "yearFrom" (.vInt 0))] else pc
  let g ← pyLtInt (pyGet p "yearTo" (.vInt 9999)) 9999
  let pc := if g then pc ++ [PubCond.yearLe (pyGet p "yearTo" (.vInt 9999))] else pc
  let g ← pyGtInt (pyGet p "yearEq" (.vInt 0)) 0
  let pc := if g then pc ++ [PubCond.yearEq (pyGet p "yearEq" (.vInt 0))] else pc
  let pc := if pyTruthy (pyGet p "paperTitleKeyword" .vNone) then
      pc ++ [PubCond.titleLike (pyFormat (pyGet p "paperTitleKeyword" .vNone))] else pc
  let pc := if pyTruthy (pyGet p "paperTitleKeywordEquals" .vNone) then
      pc ++ [PubCond.titleEq (pyGet p "paperTitleKeywordEquals" .vNone)] else pc
  let g ← pyGtInt (pyGet p "minPaperCitations" (.vInt 0)) 0
  let pc := if g then pc ++ [PubCond.citGe (pyGet p "minPaperCitations" (.vInt 0))] else pc
  let g ← pyGtInt (pyGet p "minPaperCitationsLt" (.vInt 0)) 0
  let pc := if g then pc ++ [PubCond.citLe (pyGet p "minPaperCitationsLt" (.vInt 0))] else pc
  let g ← pyGtInt (pyGet p "minPaperCitationsEq" (.vInt 0)) 0
  let pc := if g then pc ++ [PubCond.citEq (pyGet p "minPaperCitationsEq" (.vInt 0))] else pc
  let c := if pc.isEmpty then c else c ++ [Cond.pub pc]
  let ic : List InstCond := []
  let ic := if pyTruthy (pyGet p "countryKeyword" .vNone) then
      ic ++ [InstCond.countryLike (pyFormat (pyGet p "countryKeyword" .vNone))] else ic
  let ic := if pyTruthy (pyGet p "countryKeywordEquals" .vNone) then
      ic ++ [InstCond.countryEq (pyGet p "countryKeywordEquals" .vNone)] else ic
  let ic := if pyTruthy (pyGet p "institutionType" .vNone) then
      ic ++ [InstCond.typeEq (pyGet p "institutionType" .vNone)] else ic
  let c := if ic.isEmpty then c else c ++ [Cond.inst ic]
  let sp := pyTruthy (pyGet p "showPrimary" .vNone)
  let ss := pyTruthy (pyGet p "showSecondary" .vNone)
  let c := if sp || ss then c ++ [Cond.nodeTypes sp ss] else c
  let g ← pyGeInt (pyGet p "minConnections" (.vInt 1)) 1
  let c := if g then c ++ [Cond.minConn (pyGet p "minConnections" (.vInt 1))] else c
  pure c

/-- The base query `_build_filter_sql` starts from and returns when its body
raises. -/
def defaultConds : List Cond := [Cond.scholarIdNotNull]

/-- Embedding of `_build_filter_sql`: the whole body sits in one
`try/except`, so any internal exception replaces the built query by the
default one. -/
def _build_filter_sql (p : PyDict) : List Cond :=
  match build_core p with
  | .ok cs => cs
  | .error _ => defaultConds

/-! ## Execution of the compiled query (`_execute_filter_query`) -/

/-- ASCII lower-casing of one character (Python `str.lower` and SQLite's
`LIKE` both fold ASCII letters only). -/
def asciiLowerChar (c : Char) : Char :=
  if 65 ≤ c.toNat ∧ c.toNat ≤ 90 then Char.ofNat (c.toNat + 32) else c

/-- ASCII lower-casing of a string, as its character list. -/
def asciiLower (s : String) : List Char :=
  s.data.map asciiLowerChar

/-- SQLite `LIKE '%pat%'` (ASCII case-insensitive substring test). -/
def likeContains (s pat : String) : Bool :=
  (List.range ((asciiLower s).length + 1)).any
    (fun k => (asciiLower pat).isPrefixOf ((asciiLower s).drop k))

/-- SQLite `LIKE 'pat%'`. -/
def likeStarts (s pat : String) : Bool :=
  (asciiLower pat).isPrefixOf (asciiLower s)

/-- The integer SQLite compares a bound parameter against an
`INTEGER`-affinity column as: `True`/`False` bind as 1/0, a numeric string is
coerced by column affinity, and `None` (`NULL`) never compares. -/
def sqlIntVal : PyVal → Option Int
  | .vInt n => some n
  | .vBool b => some (if b then 1 else 0)
  | .vStr s => s.toInt?
  | .vNone => none

def sqlIntGe (col : Int) (v : PyVal) : Bool :=
  match sqlIntVal v with
  | some n => decide (col ≥ n)
  | none => false

def sqlIntLe (col : Int) (v : PyVal) : Bool :=
  match sqlIntVal v with
  | some n => decide (col ≤ n)
  | none => false

def sqlIntEq (col : Int) (v : PyVal) : Bool :=
  match sqlIntVal v with
  | some n => decide (col = n)
  | none => false

/-- SQL `=` between a `TEXT` column and a bound parameter: only a string
value can match. -/
def sqlTextEq (col : String) (v : PyVal) : Bool :=
  match v with
  | .vStr s => col == s
  | _ => false

def evalPubCond (pb : PubRow) : PubCond → Bool
  | .venueLike pat => likeContains pb.venue pat
  | .venueEq v => sqlTextEq pb.venue v
  | .yearGe v => sqlIntGe pb.year v
  | .yearLe v => sqlIntLe pb.year v
  | .yearEq v => sqlIntEq pb.year v
  | .titleLike pat => likeContains pb.title pat
  | .titleEq v => sqlTextEq pb.title v
  | .citGe v => sqlIntGe pb.num_citations v
  | .citLe v => sqlIntLe pb.num_citations v
  | .citEq v => sqlIntEq pb.num_citations v

def evalInstCond (ir : InstRow) : InstCond → Bool
  | .countryLike pat => likeContains ir.country pat
  | .countryEq v => sqlTextEq ir.country v
  | .typeEq _ => false

/-- Whether one scholar row satisfies one compiled clause (the `LEFT JOIN`s
combined with `WHERE` conditions on the joined columns amount to requiring a
matching joined row). -/
def evalCond (env : Env) (s : ScholarRow) : Cond → Bool
  | .scholarIdNotNull => true
  | .hideHiddenScholars => false
  | .interestLike pat =>
      env.interests.any (fun r => r.entity_id == s.scholar_id && likeContains r.interest pat)
  | .interestEq v =>
      env.interests.any (fun r => r.entity_id == s.scholar_id && sqlTextEq r.interest v)
  | .tagViaInterests v =>
      env.interests.any (fun r => r.entity_id == s.scholar_id && sqlTextEq r.interest v)
  | .affLike pat => likeContains s.affiliation pat
  | .affEq v => sqlTextEq s.affiliation v
  | .affStarts pat => likeStarts s.affiliation pat
  | .citedGe v => sqlIntGe s.citedby v
  | .citedLe v => sqlIntLe s.citedby v
  | .citedEq v => sqlIntEq s.citedby v
  | .hGe v => sqlIntGe s.hindex v
  | .hLe v => sqlIntLe s.hindex v
  | .hEq v => sqlIntEq s.hindex v
  | .pub cs =>
      env.authorship.any (fun a => a.scholar_id == s.scholar_id &&
        env.publications.any (fun pb => pb.cites_id == a.cites_id && cs.all (evalPubCond pb)))
  | .inst cs =>
      env.scholar_institutions.any (fun si => si.scholar_id == s.scholar_id &&
        env.institutions.any (fun ir => ir.inst_id == si.inst_id && cs.all (evalInstCond ir)))
  | .nodeTypes sp ss => (sp && s.is_main_scholar == 1) || (ss && s.is_main_scholar == 0)
  | .minConn v =>
      match sqlIntVal v with
      | some n => decide (n ≤ ((env.relationships.filter
          (fun r => r.source_id == s.scholar_id || r.target_id == s.scholar_id)).length : Int))
      | none => false

def condReferencesMissingColumn : Cond → Bool
  | .hideHiddenScholars => true
  | .inst cs => cs.any (fun ic => match ic with | .typeEq _ => true | _ => false)
  | _ => false

def condUsesInterests : Cond → Bool
  | .interestLike _ => true
  | .interestEq _ => true
  | .tagViaInterests _ => true
  | _ => false

def condUsesInstitutions : Cond → Bool
  | .inst _ => true
  | _ => false

/-- Whether preparing the assembled SQL fails: `s.is_hidden` and
`i.inst_type` name columns that do not exist in the schema, and combining an
interests clause with an institutions clause declares the table alias `i`
twice. -/
def queryPrepError (conds : List Cond) : Bool :=
  conds.any condReferencesMissingColumn ||
    (conds.any condUsesInterests && conds.any condUsesInstitutions)

def dedupFirstAux (seen : List String) : List String → List String
  | [] => []
  | x :: xs =>
      if x ∈ seen then dedupFirstAux seen xs
      else x :: dedupFirstAux (x :: seen) xs

/-- SQL `SELECT DISTINCT`, keeping first occurrences. -/
def dedupFirst (l : List String) : List String := dedupFirstAux [] l

/-- Execution of `SELECT DISTINCT s.scholar_id FROM scholars s ... WHERE ...
ORDER BY s.citedby DESC` against the store. -/
def evalQuery (env : Env) (conds : List Cond) : Except String (List String) :=
  if queryPrepError conds then Except.error "no such column"
  else Except.ok (dedupFirst ((sortDescBy (fun s => s.citedby)
    (env.scholars.filter (fun s => conds.all (evalCond env s)))).map
      (fun s => s.scholar_id)))

/-- The regular-query path of `_execute_filter_query`: a database exception
is caught and turned into an empty id list. -/
def runRegularQuery (env : Env) (conds : List Cond) : List String :=
  match evalQuery env conds with
  | .ok ids => ids
  | .error _ => []

/-- `_should_show_all_scholars`: show everyone exactly when the hide flag is
false. -/
def _should_show_all_scholars (hide : Bool) : Bool := !hide

/-- The show-all fallback of `_execute_filter_query` that actually yields
ids: `EntityDao.get_entities_by_type("scholar")` with its default
`LIMIT 100`, projected to the `id` column. -/
def entityScholarIds (env : Env) : List String :=
  ((env.entities.filter (fun e => e.type == "scholar")).take 100).map
    (fun e => e.id)

/-- Embedding of `_execute_filter_query`.  On the show-all path the source
tries three methods in turn.  Method 1 calls `ScholarDao.get_all_scholars`,
a method that does not exist (`AttributeError`, caught).  Method 2 runs the
raw statements `SELECT scholar_id FROM scholars` / `SELECT id FROM entities
WHERE type='scholar'` and collects `r[0]` of each row — but the connection's
`_dict_factory` (`db_manager.py`) makes every row a plain dict, so `r[0]`
raises `KeyError` on the first row (both exceptions are caught); with no
rows the comprehension yields `[]`.  Either way methods 1–2 contribute no
ids, and method 3 — `EntityDao.get_entities_by_type("scholar")`, default
`LIMIT 100` — supplies the ids.  Only when it returns none does the
compiled query run. -/
def _execute_filter_query (env : Env) (conds : List Cond) (hide : Bool) :
    List String :=
  if _should_show_all_scholars hide then
    if !(entityScholarIds env).isEmpty then entityScholarIds env
    else runRegularQuery env conds
  else runRegularQuery env conds

/-- The `hideNotInterested` coercion performed by `filter_network_data`:
booleans pass through, strings compare (case-insensitively) with `"true"`,
anything else goes through `bool(...)`. -/
def coerce_hide_param : PyVal → Bool
  | .vBool b => b
  | .vStr s => asciiLower s == "true".data
  | v => pyTruthy v

/-! ## Relationship write operations (`relationship_dao`) -/

def relMatches (r : RelRow) (src tgt rt st tt : String) : Bool :=
  r.source_id == src && r.target_id == tgt && r.source_type == st &&
    r.target_type == tt && r.relation_type == rt

/-- `relationship_exists` with a relation type supplied. -/
def relationship_exists (tbl : List RelRow) (src tgt rt st tt : String) : Bool :=
  tbl.any (fun r => relMatches r src tgt rt st tt)

/-- `update_relationship_weight`: `UPDATE relationships SET weight =
weight + ? WHERE ...` (every matching row is incremented). -/
def update_relationship_weight (tbl : List RelRow) (src tgt rt : String)
    (delta : Int) (st tt : String) : List RelRow :=
  tbl.map (fun r =>
    if relMatches r src tgt rt st tt then { r with weight := r.weight + delta }
    else r)

/-- `create_relationship`: update the weight when the triple already exists
(the `weight` argument then acts as the delta), otherwise insert a row. -/
def create_relationship (tbl : List RelRow) (src tgt rt : String) (w : Int)
    (st tt : String) (ic : Bool) : List RelRow :=
  if relationship_exists tbl src tgt rt st tt then
    update_relationship_weight tbl src tgt rt w st tt
  else
    tbl ++ [{ source_id := src, source_type := st, target_id := tgt,
              target_type := tt, relation_type := rt, weight := w,
              is_custom := ic }]

/-- One tuple of `create_relationships_batch`'s input. -/
structure BatchItem where
  source_id : String
  target_id : String
  relation_type : String
  weight : Int
deriving DecidableEq

/-- The canonical unordered pair `frozenset([source_id, target_id])`. -/
def pairKey (a b : String) : String × String := (min a b, max a b)

/-- The dedup-and-collect loop of `create_relationships_batch`: a `coauthor`
tuple whose unordered endpoint pair was already processed is skipped; every
kept tuple marks its pair as processed. -/
def batchValues : List BatchItem → List (String × String) → List RelRow
  | [], _ => []
  | item :: rest, processed =>
      let key := pairKey item.source_id item.target_id
      if key ∈ processed ∧ item.relation_type = "coauthor" then
        batchValues rest processed
      else
        { source_id := item.source_id, source_type := "scholar",
          target_id := item.target_id, target_type := "scholar",
          relation_type := item.relation_type, weight := item.weight,
          is_custom := false } :: batchValues rest (key :: processed)

/-- `create_relationships_batch`: `INSERT OR REPLACE INTO relationships ...`.
The `relationships` table's only uniqueness constraint is its autoincrement
primary key (`backend/db/models.py`), which the statement does not supply, so
no conflict can arise and every prepared row is inserted as a new row. -/
def create_relationships_batch (tbl : List RelRow) (data : List BatchItem) :
    List RelRow :=
  tbl ++ batchValues data []

/-- The write-path operations of the relationship DAO. -/
inductive WriteOp where
  | create (src tgt rt : String) (w : Int) (st tt : String) (ic : Bool)
  | updateWeight (src tgt rt : String) (delta : Int) (st tt : String)
  | batch (data : List BatchItem)

def applyOp (tbl : List RelRow) : WriteOp → List RelRow
  | .create src tgt rt w st tt ic => create_relationship tbl src tgt rt w st tt ic
  | .updateWeight src tgt rt d st tt => update_relationship_weight tbl src tgt rt d st tt
  | .batch data => create_relationships_batch tbl data

/-- The weight argument supplied on the import path is an observation count
(an integer ≥ 1 in the data model), so the applied delta is nonnegative. -/
def opNonnegDelta : WriteOp → Prop
  | .create _ _ _ w _ _ _ => 0 ≤ w
  | .updateWeight _ _ _ d _ _ => 0 ≤ d
  | .batch _ => True

/-! ## Claim C1: consolidation policy -/

/-- C1.  For every pair connected by raw relationship rows, the consolidated
record of `get_scholar_relationsips` carries: a label that is one of the
observed relation types and attains the minimal priority value among them
under the ranking advisor(1) < colleague(2) < coauthor(3) < unrecognized
(999); a weight that is the maximum (not the sum) of the weights observed
for the pair; and an `all_relation_types` list holding every observed type
(it is exactly the list of observed types in arrival order). -/
theorem consolidation_priority_maxweight_alltypes (rows : List Row) (t : String)
    (ht : t ≠ "") (hmem : ∃ r ∈ rows, r.scholar_id = t) :
    ∃ c, dictLookup (target_relationships rows) t = some c ∧
      c.scholar_id = t ∧
      c.relation_type ∈ (rowsFor rows t).map (fun r => r.relation_type) ∧
      (∀ r ∈ rowsFor rows t,
        relationPriority c.relation_type ≤ relationPriority r.relation_type) ∧
      c.collaboration_count ∈ (rowsFor rows t).map (fun r => r.collaboration_count) ∧
      (∀ r ∈ rowsFor rows t, r.collaboration_count ≤ c.collaboration_count) ∧
      c.all_relation_types = (rowsFor rows t).map (fun r => r.relation_type) := by
  obtain ⟨c, h₁, h₂, h₃, h₄, h₅, h₆, h₇⟩ := target_relationships_spec rows t ht hmem
  exact ⟨c, h₁, h₂, h₄, h₅, h₆, h₇, h₃⟩

/-- The spec's tie-break scenario: a coauthor row of weight 3 and an advisor
row of weight 1 for the same pair. -/
def exPairRows : List Row :=
  [{ scholar_id := "B", collaboration_count := 3, relation_type := "coauthor" },
   { scholar_id := "B", collaboration_count := 1, relation_type := "advisor" }]

theorem consolidation_priority_maxweight_alltypes_witness :
    (∃ c, dictLookup (target_relationships exPairRows) "B" = some c ∧
      c.scholar_id = "B" ∧
      c.relation_type ∈ (rowsFor exPairRows "B").map (fun r => r.relation_type) ∧
      (∀ r ∈ rowsFor exPairRows "B",
        relationPriority c.relation_type ≤ relationPriority r.relation_type) ∧
      c.collaboration_count ∈ (rowsFor exPairRows "B").map (fun r => r.collaboration_count) ∧
      (∀ r ∈ rowsFor exPairRows "B", r.collaboration_count ≤ c.collaboration_count) ∧
      c.all_relation_types = (rowsFor exPairRows "B").map (fun r => r.relation_type)) ∧
    dictLookup (target_relationships exPairRows) "B" =
      some { scholar_id := "B", collaboration_count := 3,
             relation_type := "advisor",
             all_relation_types := ["coauthor", "advisor"] } :=
  ⟨consolidation_priority_maxweight_alltypes exPairRows "B" (by decide)
      ⟨{ scholar_id := "B", collaboration_count := 3, relation_type := "coauthor" },
        by decide, rfl⟩,
    by decide⟩

/-! ## Claim C5: consolidation under reordering -/

def rowsOrderA : List Row :=
  [{ scholar_id := "B", collaboration_count := 1, relation_type := "coauthor" },
   { scholar_id := "C", collaboration_count := 1, relation_type := "coauthor" }]

def rowsOrderB : List Row :=
  [{ scholar_id := "C", collaboration_count := 1, relation_type := "coauthor" },
   { scholar_id := "B", collaboration_count := 1, relation_type := "coauthor" }]

/-- C5 counterexample.  The same raw row set presented in reversed order
does not consolidate to byte-identical output: with two targets of equal
weight, Python's stable sort keeps them in dict-insertion order, which
follows the row order, so the record ordering differs. -/
theorem consolidation_order_sensitive :
    rowsOrderB = rowsOrderA.reverse ∧
    consolidate rowsOrderA 1000 0 ≠ consolidate rowsOrderB 1000 0 := by decide

/-- C5 as amended.  Consolidation of permuted row sets agrees on the
semantic content of each pair's record — the weight, the label's priority
value, and the set of observed relation types — though not on record order
or on the `all_relation_types` list order. -/
theorem consolidation_perm_invariant (rows rows₂ : List Row)
    (hperm : rows.Perm rows₂) (t : String) (ht : t ≠ "") (c c₂ : Collab)
    (h : dictLookup (target_relationships rows) t = some c)
    (h₂ : dictLookup (target_relationships rows₂) t = some c₂) :
    c.collaboration_count = c₂.collaboration_count ∧
    relationPriority c.relation_type = relationPriority c₂.relation_type ∧
    (∀ ty, ty ∈ c.all_relation_types ↔ ty ∈ c₂.all_relation_types) := by
  have hfilter : (rowsFor rows t).Perm (rowsFor rows₂ t) := by
    unfold rowsFor
    exact hperm.filter _
  have hmem : ∃ r ∈ rows, r.scholar_id = t := by
    by_contra hno
    push_neg at hno
    have hnil : rowsFor rows t = [] := by
      refine List.filter_eq_nil_iff.mpr ?_
      intro r hr
      simpa using hno r hr
    have : dictLookup (target_relationships rows) t = none := by
      have := dictLookup_target_fold rows [] t ht
      rw [target_relationships, this, hnil]
      rfl
    rw [this] at h
    cases h
  have hmem₂ : ∃ r ∈ rows₂, r.scholar_id = t := by
    obtain ⟨r, hr, hid⟩ := hmem
    exact ⟨r, hperm.mem_iff.mp hr, hid⟩
  obtain ⟨d, hd₁, _, hd₃, hd₄, hd₅, hd₆, hd₇⟩ :=
    target_relationships_spec rows t ht hmem
  obtain ⟨d₂, he₁, _, he₃, he₄, he₅, he₆, he₇⟩ :=
    target_relationships_spec rows₂ t ht hmem₂
  rw [h] at hd₁
  rw [h₂] at he₁
  injection hd₁ with hd₁
  injection he₁ with he₁
  subst hd₁
  subst he₁
  have hmemmap : ∀ x, x ∈ (rowsFor rows t).map (fun r => r.collaboration_count) ↔
      x ∈ (rowsFor rows₂ t).map (fun r => r.collaboration_count) :=
    fun x => (hfilter.map (fun r => r.collaboration_count)).mem_iff
  have htypemap : ∀ x, x ∈ (rowsFor rows t).map (fun r => r.relation_type) ↔
      x ∈ (rowsFor rows₂ t).map (fun r => r.relation_type) :=
    fun x => (hfilter.map (fun r => r.relation_type)).mem_iff
  refine ⟨?_, ?_, ?_⟩
  · obtain ⟨r, hr, hrw⟩ := List.mem_map.mp ((hmemmap _).mp hd₆)
    obtain ⟨r₂, hr₂, hrw₂⟩ := List.mem_map.mp ((hmemmap _).mpr he₆)
    have h₁ : c.collaboration_count ≤ c₂.collaboration_count := by
      calc c.collaboration_count = r.collaboration_count := hrw.symm
        _ ≤ c₂.collaboration_count := he₇ r hr
    have hge : c₂.collaboration_count ≤ c.collaboration_count := by
      calc c₂.collaboration_count = r₂.collaboration_count := hrw₂.symm
        _ ≤ c.collaboration_count := hd₇ r₂ hr₂
    exact le_antisymm h₁ hge
  · obtain ⟨r, hr, hrt⟩ := List.mem_map.mp ((htypemap _).mp hd₄)
    obtain ⟨r₂, hr₂, hrt₂⟩ := List.mem_map.mp ((htypemap _).mpr he₄)
    have h₁ : relationPriority c₂.relation_type ≤ relationPriority c.relation_type := by
      have := he₅ r hr
      rw [hrt] at this
      exact this
    have h₂ : relationPriority c.relation_type ≤ relationPriority c₂.relation_type := by
      have := hd₅ r₂ hr₂
      rw [hrt₂] at this
      exact this
    exact le_antisymm h₂ h₁
  · intro ty
    rw [hd₃, he₃]
    exact htypemap ty

/-- The record both orderings produce for target B in the example. -/
def collabBB : Collab :=
  { scholar_id := "B", collaboration_count := 1, relation_type := "coauthor",
    all_relation_types := ["coauthor"] }

theorem consolidation_perm_invariant_witness :
    collabBB.collaboration_count = collabBB.collaboration_count ∧
    relationPriority collabBB.relation_type = relationPriority collabBB.relation_type ∧
    (∀ ty, ty ∈ collabBB.all_relation_types ↔ ty ∈ collabBB.all_relation_types) :=
  consolidation_perm_invariant rowsOrderA rowsOrderB (by decide) "B" (by decide)
    collabBB collabBB (by decide) (by decide)

/-! ## Claim C2: the significance filter -/

/-- C2.  The significance selection: with fewer than 20 primary scholars
every connected secondary id is kept; with 20 or more, exactly those with
connectivity strictly greater than 2 are kept; and when none exceeds 2 the
selection falls back (deterministically — it is a function) to all of them. -/
theorem significance_filter_policy (total : Nat) (conn : List (String × Nat)) :
    (total < 20 → selectSignificant total conn = conn) ∧
    (20 ≤ total → (conn.filter (fun q => decide (q.2 > 2))).isEmpty = true →
      selectSignificant total conn = conn) ∧
    (20 ≤ total → (conn.filter (fun q => decide (q.2 > 2))).isEmpty = false →
      selectSignificant total conn = conn.filter (fun q => decide (q.2 > 2))) := by
  refine ⟨?_, ?_, ?_⟩
  · intro h
    simp [selectSignificant, h]
  · intro h he
    simp [selectSignificant, Nat.not_lt.mpr h, he]
  · intro h he
    simp [selectSignificant, Nat.not_lt.mpr h, he]

theorem significance_filter_policy_witness :
    selectSignificant 5 [("X", 1), ("Y", 3)] = [("X", 1), ("Y", 3)] ∧
    selectSignificant 25 [("Z", 2), ("W", 5)] = [("W", 5)] ∧
    selectSignificant 25 [("Z", 2)] = [("Z", 2)] := by
  refine ⟨(significance_filter_policy 5 [("X", 1), ("Y", 3)]).1 (by decide), ?_,
    (significance_filter_policy 25 [("Z", 2)]).2.1 (by decide) (by decide)⟩
  have h := (significance_filter_policy 25 [("Z", 2), ("W", 5)]).2.2 (by decide) (by decide)
  rw [h]
  decide

/-! ## Claim C3: direction of the raw relationship fetch -/

def exRelTable : List RelRow :=
  [{ source_id := "A", source_type := "scholar", target_id := "B",
     target_type := "scholar", relation_type := "coauthor", weight := 2,
     is_custom := false }]

/-- C3 counterexample.  A table holding one relationship row A→B touches
scholar B (as target), yet the raw set fetched for B is empty: the query of
`get_scholar_relationsips` selects on `source_id` only.  The same row is
fetched for A. -/
theorem fetch_misses_target_direction :
    exRelTable.map (fun r => r.target_id) = ["B"] ∧
    fetch_scholar_relations exRelTable "B" = [] ∧
    fetch_scholar_relations exRelTable "A" ≠ [] := by decide

/-- C3 as amended.  The raw row set consolidation operates on consists of
exactly the scholar-to-scholar rows in which the given scholar is the
SOURCE; rows in which it appears only as the target are not fetched. -/
theorem fetch_source_direction_only (tbl : List RelRow) (sid : String) :
    (∀ r, r ∈ fetched_rel_rows tbl sid ↔
      r ∈ tbl ∧ r.source_id = sid ∧ r.source_type = "scholar" ∧
        r.target_type = "scholar") ∧
    (∀ x, x ∈ fetch_scholar_relations tbl sid ↔
      ∃ r, (r ∈ tbl ∧ r.source_id = sid ∧ r.source_type = "scholar" ∧
          r.target_type = "scholar") ∧
        x = { scholar_id := r.target_id, collaboration_count := r.weight,
              relation_type := r.relation_type }) := by
  have hbase : ∀ r, r ∈ fetched_rel_rows tbl sid ↔
      r ∈ tbl ∧ r.source_id = sid ∧ r.source_type = "scholar" ∧
        r.target_type = "scholar" := by
    intro r
    rw [fetched_rel_rows, mem_sortDescBy]
    simp [List.mem_filter, and_assoc]
  refine ⟨hbase, fun x => ?_⟩
  rw [fetch_scholar_relations]
  simp only [List.mem_map]
  constructor
  · rintro ⟨r, hr, rfl⟩
    exact ⟨r, (hbase r).mp hr, rfl⟩
  · rintro ⟨r, hr, rfl⟩
    exact ⟨r, (hbase r).mpr hr, rfl⟩

/-! ## Structural lemmas for the two graph producers -/

theorem assembleNetwork_edges_closed (nodes : List Node) (all_edges : List Edge) :
    ∀ e ∈ (assembleNetwork nodes all_edges).edges,
      e.source ∈ nodes.map (fun n => n.id) ∧ e.target ∈ nodes.map (fun n => n.id) := by
  intro e he
  simp only [assembleNetwork, List.mem_filter, Bool.and_eq_true] at he
  refine ⟨?_, ?_⟩
  · have := he.2.1
    simpa using this
  · have := he.2.2
    simpa using this

/-- Destructor for the success branch of `generate_data`. -/
theorem generate_data_ok_elim (env : Env) (hide : Bool) (net : Network)
    (h : generate_data env hide = Except.ok net) :
    ∃ filtered st,
      filtered = (get_main_scholars env).filter (fun s => !(hide && s.is_main_scholar == 2)) ∧
      st = edgePhase env hide (primaryPhase env filtered).2
        (((get_main_scholars env).filter (fun s => hide && s.is_main_scholar == 2)).map
          (fun s => s.scholar_id)) ∧
      net = assembleNetwork
        ((primaryPhase env filtered).1 ++
          ((selectSignificant (primaryPhase env filtered).2.length st.conn).map Prod.fst).filterMap
            (mkSecondaryNode env hide st.notInterested))
        st.all_edges := by
  simp only [generate_data] at h
  split at h
  · cases h
  · split at h
    · cases h
    · split at h
      · cases h
      · rw [Except.ok.injEq] at h
        exact ⟨_, _, rfl, rfl, h.symm⟩

theorem mem_get_main_scholars (env : Env) (s : ScholarRow)
    (h : s ∈ get_main_scholars env) :
    s ∈ env.scholars ∧ s.is_main_scholar = 1 := by
  unfold get_main_scholars at h
  have h₁ := List.mem_of_mem_take h
  obtain ⟨s₀, hs₀, hmap⟩ := List.mem_flatMap.mp h₁
  obtain ⟨-, -, heq⟩ := List.mem_map.mp hmap
  subst heq
  have := List.mem_filter.mp hs₀
  exact ⟨this.1, by simpa using this.2⟩

theorem get_scholar_by_id_some (env : Env) (sid : String) (sc : ScholarRow)
    (h : get_scholar_by_id env sid = some sc) :
    sc ∈ env.scholars ∧ sc.scholar_id = sid := by
  refine ⟨List.mem_of_find?_eq_some h, ?_⟩
  have := List.find?_some h
  simpa using this

theorem mkPrimaryNode_some (env : Env) (s : ScholarRow) (n : Node)
    (h : mkPrimaryNode env s = some n) :
    n.id = s.scholar_id ∧ n.group = "primary" := by
  unfold mkPrimaryNode at h
  cases hE : get_entity_by_id env s.scholar_id with
  | none => rw [hE] at h; cases h
  | some e =>
      rw [hE] at h
      injection h with h
      subst h
      exact ⟨rfl, rfl⟩

theorem mkSecondaryNode_some (env : Env) (hide : Bool) (cache : List String)
    (sid : String) (n : Node) (h : mkSecondaryNode env hide cache sid = some n) :
    n.id = sid ∧ n.group = "secondary" ∧
      ∃ sc, get_scholar_by_id env sid = some sc ∧
        (hide = true → sc.is_main_scholar ≠ 2) := by
  unfold mkSecondaryNode at h
  split at h
  · cases h
  · split at h
    · cases h
    · rename_i sc hS
      split at h
      · cases h
      · rename_i hcond
        split at h
        · cases h
        · rename_i e hE
          injection h with h
          subst h
          exact ⟨rfl, rfl, sc, hS, fun hh hm2 => hcond ⟨hh, hm2⟩⟩

/-- Every node accumulated by the primary loop comes from `mkPrimaryNode` on
one of the processed scholars. -/
theorem primaryPhase_nodes_from (env : Env) (ms : List ScholarRow)
    (acc : List Node × List String)
    (hacc : ∀ n ∈ acc.1, ∃ s ∈ env.scholars, s.is_main_scholar = 1 ∧
      mkPrimaryNode env s = some n)
    (hms : ∀ s ∈ ms, s ∈ env.scholars ∧ s.is_main_scholar = 1) :
    ∀ n ∈ (ms.foldl (fun acc s =>
        match mkPrimaryNode env s with
        | none => acc
        | some n => (acc.1 ++ [n], addId acc.2 s.scholar_id)) acc).1,
      ∃ s ∈ env.scholars, s.is_main_scholar = 1 ∧ mkPrimaryNode env s = some n := by
  induction ms generalizing acc with
  | nil => exact hacc
  | cons s₀ rest ih =>
      simp only [List.foldl_cons]
      refine ih _ ?_ (fun s hs => hms s (List.mem_cons_of_mem s₀ hs))
      cases hmk : mkPrimaryNode env s₀ with
      | none => simpa [hmk] using hacc
      | some n₀ =>
          simp only [hmk]
          intro n hn
          rcases List.mem_append.mp hn with hn | hn
          · exact hacc n hn
          · rw [List.mem_singleton] at hn
            subst hn
            obtain ⟨h₁, h₂⟩ := hms s₀ (List.mem_cons_self s₀ rest)
            exact ⟨s₀, h₁, h₂, hmk⟩

/-- Provenance of the nodes of a successfully assembled graph: each is
either a primary node built from an `is_main_scholar = 1` row, or a
secondary node that passed the not-interested check of the secondary loop. -/
theorem generate_data_nodes_cases (env : Env) (hide : Bool) (net : Network)
    (h : generate_data env hide = Except.ok net) (n : Node) (hn : n ∈ net.nodes) :
    (∃ s ∈ env.scholars, s.is_main_scholar = 1 ∧ n.id = s.scholar_id ∧
      n.group = "primary") ∨
    (∃ sc, get_scholar_by_id env n.id = some sc ∧
      (hide = true → sc.is_main_scholar ≠ 2) ∧ n.group = "secondary") := by
  obtain ⟨filtered, st, hf, hst, hnet⟩ := generate_data_ok_elim env hide net h
  subst hnet
  rcases List.mem_append.mp hn with hn | hn
  · left
    have hms : ∀ s ∈ filtered, s ∈ env.scholars ∧ s.is_main_scholar = 1 := by
      intro s hs
      rw [hf] at hs
      exact mem_get_main_scholars env s (List.mem_filter.mp hs).1
    obtain ⟨s, hs, hmain, hmk⟩ :=
      primaryPhase_nodes_from env filtered ([], []) (by intro n hn; cases hn) hms n hn
    obtain ⟨hid, hgroup⟩ := mkPrimaryNode_some env s n hmk
    exact ⟨s, hs, hmain, hid, hgroup⟩
  · right
    obtain ⟨sid, -, hmk⟩ := List.mem_filterMap.mp hn
    obtain ⟨hid, hgroup, sc, hsc, hni⟩ := mkSecondaryNode_some env hide _ sid n hmk
    subst hid
    exact ⟨sc, hsc, hni, hgroup⟩

theorem mkFilteredNode_some (env : Env) (hide : Bool) (sid : String) (n : Node)
    (h : mkFilteredNode env hide sid = some n) :
    n.id = sid ∧ ∃ sc, get_scholar_by_id env sid = some sc ∧
      n.group = filteredGroup sc := by
  unfold mkFilteredNode at h
  split at h
  · cases h
  · rename_i sc hS
    split at h
    · cases h
    · split at h
      · cases h
      · rename_i e hE
        injection h with h
        subst h
        exact ⟨rfl, sc, hS, rfl⟩

/-- The ids accumulated by the filtered node loop are ids of accumulated
nodes. -/
theorem filteredNodesPhase_ids (env : Env) (hide : Bool) (ids : List String)
    (acc : List Node × List String)
    (hacc : ∀ x ∈ acc.2, x ∈ acc.1.map (fun n => n.id)) :
    ∀ x ∈ (ids.foldl (fun acc sid =>
        match mkFilteredNode env hide sid with
        | none => acc
        | some n => (acc.1 ++ [n], addId acc.2 sid)) acc).2,
      x ∈ (ids.foldl (fun acc sid =>
        match mkFilteredNode env hide sid with
        | none => acc
        | some n => (acc.1 ++ [n], addId acc.2 sid)) acc).1.map (fun n => n.id) := by
  induction ids generalizing acc with
  | nil => exact hacc
  | cons sid rest ih =>
      simp only [List.foldl_cons]
      refine ih _ ?_
      cases hmk : mkFilteredNode env hide sid with
      | none => simpa [hmk] using hacc
      | some n₀ =>
          have hid : n₀.id = sid := (mkFilteredNode_some env hide sid n₀ hmk).1
          simp only [hmk]
          intro x hx
          simp only [addId] at hx
          by_cases hmem : sid ∈ acc.2
          · rw [if_pos hmem] at hx
            have := hacc x hx
            simp only [List.map_append, List.mem_append]
            exact Or.inl this
          · rw [if_neg hmem] at hx
            rcases List.mem_append.mp hx with hx | hx
            · have := hacc x hx
              simp only [List.map_append, List.mem_append]
              exact Or.inl this
            · rw [List.mem_singleton] at hx
              subst hx
              simp [hid]

/-- Every edge accumulated by the filtered edge loop keeps both endpoints
inside `validIds` (the source is one of the iterated ids, the target passed
the membership check). -/
theorem filteredEdgeStep_fold_closed (validIds rf : List String) (sid : String)
    (hsid : sid ∈ validIds) (rels : List Collab) (acc : List Edge × List String)
    (hacc : ∀ e ∈ acc.1, e.source ∈ validIds ∧ e.target ∈ validIds) :
    ∀ e ∈ (rels.foldl (filteredEdgeStep validIds rf sid) acc).1,
      e.source ∈ validIds ∧ e.target ∈ validIds := by
  induction rels generalizing acc with
  | nil => exact hacc
  | cons rel rest ih =>
      simp only [List.foldl_cons]
      refine ih _ ?_
      simp only [filteredEdgeStep]
      split
      · exact hacc
      · split
        · rename_i hcond
          split
          · exact hacc
          · intro e he
            rcases List.mem_append.mp he with he | he
            · exact hacc e he
            · rw [List.mem_singleton] at he
              subst he
              exact ⟨hsid, hcond.1⟩
        · exact hacc

theorem filteredEdges_outer_closed (env : Env) (validIds rf : List String)
    (sids : List String) (hsids : ∀ s ∈ sids, s ∈ validIds)
    (acc : List Edge × List String)
    (hacc : ∀ e ∈ acc.1, e.source ∈ validIds ∧ e.target ∈ validIds) :
    ∀ e ∈ (sids.foldl (fun acc sid =>
        (get_scholar_relationsips env sid).foldl (filteredEdgeStep validIds rf sid) acc)
        acc).1,
      e.source ∈ validIds ∧ e.target ∈ validIds := by
  induction sids generalizing acc with
  | nil => exact hacc
  | cons sid rest ih =>
      simp only [List.foldl_cons]
      refine ih (fun s hs => hsids s (List.mem_cons_of_mem sid hs)) _ ?_
      exact filteredEdgeStep_fold_closed validIds rf sid
        (hsids sid (List.mem_cons_self sid rest)) _ acc hacc

/-- Edge closure for the filtered projection, for every input. -/
theorem filtered_network_closed (env : Env) (ids : List String) (params : PyDict) :
    ∀ e ∈ (_generate_filtered_network_data env ids params).edges,
      e.source ∈ (_generate_filtered_network_data env ids params).nodes.map (fun n => n.id) ∧
      e.target ∈ (_generate_filtered_network_data env ids params).nodes.map (fun n => n.id) := by
  have hgen : ∀ net : Network, _generate_filtered_network_data env ids params = net →
      ∀ e ∈ net.edges, e.source ∈ net.nodes.map (fun n => n.id) ∧
        e.target ∈ net.nodes.map (fun n => n.id) := by
    intro net hnet
    simp only [_generate_filtered_network_data] at hnet
    split at hnet
    · subst hnet
      intro e he
      simp at he
    · split at hnet
      · subst hnet
        intro e he
        simp at he
      · subst hnet
        intro e he
        have hclose := filteredEdges_outer_closed env
          (filteredNodesPhase env (pyTruthy (pyGet params "hide_not_interested" (.vBool true))) ids).2
          (relationFilters params)
          (filteredNodesPhase env (pyTruthy (pyGet params "hide_not_interested" (.vBool true))) ids).2
          (fun s hs => hs) ([], []) (by intro e he; cases he) e he
        have hids := filteredNodesPhase_ids env
          (pyTruthy (pyGet params "hide_not_interested" (.vBool true))) ids ([], [])
          (by intro x hx; cases hx)
        exact ⟨hids _ hclose.1, hids _ hclose.2⟩
  exact hgen _ rfl

/-! ## Claim C4: both endpoints of every produced edge are node ids -/

/-- C4.  In every graph produced by graph assembly (`generate_data`) or by
the filtered subgraph projection (`_generate_filtered_network_data`), each
edge's source and target ids appear among the ids of the accompanying node
list; an edge with a pruned endpoint is dropped entirely. -/
theorem produced_graphs_edge_endpoints_in_nodes :
    (∀ env hide net, generate_data env hide = Except.ok net →
      ∀ e ∈ net.edges, e.source ∈ net.nodes.map (fun n => n.id) ∧
        e.target ∈ net.nodes.map (fun n => n.id)) ∧
    (∀ env ids params, ∀ e ∈ (_generate_filtered_network_data env ids params).edges,
      e.source ∈ (_generate_filtered_network_data env ids params).nodes.map (fun n => n.id) ∧
      e.target ∈ (_generate_filtered_network_data env ids params).nodes.map (fun n => n.id)) := by
  constructor
  · intro env hide net h e he
    obtain ⟨filtered, st, -, -, hnet⟩ := generate_data_ok_elim env hide net h
    subst hnet
    exact assembleNetwork_edges_closed _ _ e he
  · intro env ids params
    exact filtered_network_closed env ids params

/-- A two-primary-scholar store with one coauthor relationship. -/
def envEx : Env :=
  { scholars :=
      [{ scholar_id := "A", affiliation := "", homepage := "", url_picture := "",
         citedby := 0, hindex := 0, i10index := 0, is_main_scholar := 1 },
       { scholar_id := "B", affiliation := "", homepage := "", url_picture := "",
         citedby := 0, hindex := 0, i10index := 0, is_main_scholar := 1 }]
    entities :=
      [{ id := "A", type := "scholar", name := "Alice", data := [] },
       { id := "B", type := "scholar", name := "Bob", data := [] }]
    interests := []
    relationships :=
      [{ source_id := "A", source_type := "scholar", target_id := "B",
         target_type := "scholar", relation_type := "coauthor", weight := 2,
         is_custom := false }]
    publications := []
    authorship := []
    institutions := []
    scholar_institutions := [] }

/-- The graph `generate_data` assembles over `envEx`. -/
def netEx : Network :=
  match generate_data envEx true with
  | Except.ok n => n
  | Except.error _ => { nodes := [], edges := [] }

theorem produced_graphs_edge_endpoints_in_nodes_witness :
    ({ source := "A", target := "B", label := "coauthor", weight := 2,
       all_relations := none } : Edge).source ∈ netEx.nodes.map (fun n => n.id) ∧
    ({ source := "A", target := "B", label := "coauthor", weight := 2,
       all_relations := none } : Edge).target ∈ netEx.nodes.map (fun n => n.id) :=
  produced_graphs_edge_endpoints_in_nodes.1 envEx true netEx rfl
    { source := "A", target := "B", label := "coauthor", weight := 2,
      all_relations := none } (by decide)

/-! ## Claim C6: visibility of NotInterested scholars -/

/-- A store whose only scholar has role status NotInterested
(`is_main_scholar = 2`). -/
def envC6 : Env :=
  { scholars :=
      [{ scholar_id := "N", affiliation := "", homepage := "", url_picture := "",
         citedby := 0, hindex := 0, i10index := 0, is_main_scholar := 2 }]
    entities := [{ id := "N", type := "scholar", name := "Nina", data := [] }]
    interests := []
    relationships := []
    publications := []
    authorship := []
    institutions := []
    scholar_institutions := [] }

def paramsC6 : PyDict := [("hide_not_interested", .vBool true)]

/-- C6 counterexample.  With the hide flag true, the filtered projection
still materializes a node for the NotInterested scholar N: its
hidden-scholar guard tests `scholar.get("is_hidden")`, a key the `scholars`
schema does not produce, so no role-based exclusion happens — and the node's
group is `"secondary"`, not `"not-interested"`. -/
theorem filtered_projection_shows_not_interested :
    envC6.scholars.map (fun s => s.is_main_scholar) = [2] ∧
    pyTruthy (pyGet paramsC6 "hide_not_interested" (.vBool true)) = true ∧
    (_generate_filtered_network_data envC6 ["N"] paramsC6).nodes.map (fun n => n.id) = ["N"] ∧
    (_generate_filtered_network_data envC6 ["N"] paramsC6).nodes.map (fun n => n.group) =
      ["secondary"] := by decide

/-- C6 as amended.  For the assembled graph (`generate_data`) the claim
holds: with the hide flag true, no node and no edge references a scholar
whose role status is NotInterested (`is_main_scholar = 2`) — primary nodes
come from role-1 rows and the secondary loop re-checks the role.  (The
filtered projection does not enforce this — see the counterexample — and
neither producer ever emits the group `"not-interested"`.) -/
theorem generate_data_hides_not_interested (env : Env) (net : Network)
    (hids : (env.scholars.map (fun s => s.scholar_id)).Nodup)
    (h : generate_data env true = Except.ok net) :
    (∀ n ∈ net.nodes, ∀ s ∈ env.scholars, s.scholar_id = n.id →
      s.is_main_scholar ≠ 2) ∧
    (∀ e ∈ net.edges, ∀ s ∈ env.scholars,
      s.scholar_id = e.source ∨ s.scholar_id = e.target →
        s.is_main_scholar ≠ 2) := by
  have hnode : ∀ n ∈ net.nodes, ∀ s ∈ env.scholars, s.scholar_id = n.id →
      s.is_main_scholar ≠ 2 := by
    intro n hn s hs hid
    rcases generate_data_nodes_cases env true net h n hn with
      ⟨s₀, hs₀, hmain, hnid, -⟩ | ⟨sc, hsc, hni, -⟩
    · have hss : s = s₀ :=
        List.inj_on_of_nodup_map hids hs hs₀ (by rw [hid, hnid])
      rw [hss, hmain]
      decide
    · obtain ⟨hscmem, hscid⟩ := get_scholar_by_id_some env n.id sc hsc
      have hss : s = sc :=
        List.inj_on_of_nodup_map hids hs hscmem (by rw [hid, hscid])
      rw [hss]
      exact hni rfl
  refine ⟨hnode, ?_⟩
  intro e he s hs hor
  have hclosed : e.source ∈ net.nodes.map (fun n => n.id) ∧
      e.target ∈ net.nodes.map (fun n => n.id) := by
    obtain ⟨filtered, st, -, -, hnet⟩ := generate_data_ok_elim env true net h
    subst hnet
    exact assembleNetwork_edges_closed _ _ e he
  rcases hor with hor | hor
  · obtain ⟨n, hnmem, hnid⟩ := List.mem_map.mp hclosed.1
    refine hnode n hnmem s hs ?_
    rw [hor]
    exact hnid.symm
  · obtain ⟨n, hnmem, hnid⟩ := List.mem_map.mp hclosed.2
    refine hnode n hnmem s hs ?_
    rw [hor]
    exact hnid.symm

theorem generate_data_hides_not_interested_witness :
    (∀ n ∈ netEx.nodes, ∀ s ∈ envEx.scholars, s.scholar_id = n.id →
      s.is_main_scholar ≠ 2) ∧
    (∀ e ∈ netEx.edges, ∀ s ∈ envEx.scholars,
      s.scholar_id = e.source ∨ s.scholar_id = e.target →
        s.is_main_scholar ≠ 2) :=
  generate_data_hides_not_interested envEx netEx (by decide) rfl

/-! ## Claim C9: weight monotonicity of the write path -/

/-- Every row of `tbl` is still present at its position in `out`, with the
same identifying fields and a weight at least as large. -/
def RowsPreserved (tbl out : List RelRow) : Prop :=
  tbl.length ≤ out.length ∧
  ∀ i (hi : i < tbl.length) (hi₂ : i < out.length),
    (out.get ⟨i, hi₂⟩).source_id = (tbl.get ⟨i, hi⟩).source_id ∧
    (out.get ⟨i, hi₂⟩).target_id = (tbl.get ⟨i, hi⟩).target_id ∧
    (out.get ⟨i, hi₂⟩).relation_type = (tbl.get ⟨i, hi⟩).relation_type ∧
    (tbl.get ⟨i, hi⟩).weight ≤ (out.get ⟨i, hi₂⟩).weight

theorem rowsPreserved_append (tbl ext : List RelRow) :
    RowsPreserved tbl (tbl ++ ext) := by
  refine ⟨by simp, ?_⟩
  intro i hi hi₂
  have hget : (tbl ++ ext).get ⟨i, hi₂⟩ = tbl.get ⟨i, hi⟩ := by
    simp [List.get_eq_getElem, List.getElem_append_left hi]
  rw [hget]
  exact ⟨rfl, rfl, rfl, le_refl _⟩

theorem rowsPreserved_update (tbl : List RelRow) (src tgt rt : String)
    (d : Int) (st tt : String) (hd : 0 ≤ d) :
    RowsPreserved tbl (update_relationship_weight tbl src tgt rt d st tt) := by
  refine ⟨by simp [update_relationship_weight], ?_⟩
  intro i hi hi₂
  simp only [update_relationship_weight, List.get_eq_getElem, List.getElem_map]
  split
  · exact ⟨rfl, rfl, rfl, le_add_of_nonneg_right hd⟩
  · exact ⟨rfl, rfl, rfl, le_refl _⟩

/-- C9.  Across the three write-path operations (`create_relationship`,
`update_relationship_weight`, `create_relationships_batch`) with the
nonnegative deltas of the import path, every relationship row already in the
table keeps its identifying (source, target, relation type) triple and its
stored weight never decreases.  In particular `create_relationships_batch`'s
`INSERT OR REPLACE` appends new rows without touching existing ones, because
the `relationships` table has no uniqueness constraint on the triple. -/
theorem relationship_weight_monotonic (tbl : List RelRow) (op : WriteOp)
    (hop : opNonnegDelta op) :
    RowsPreserved tbl (applyOp tbl op) := by
  cases op with
  | create src tgt rt w st tt ic =>
      have hd : (0 : Int) ≤ w := hop
      by_cases hex : relationship_exists tbl src tgt rt st tt = true
      · simp only [applyOp, create_relationship, if_pos hex]
        exact rowsPreserved_update tbl src tgt rt w st tt hd
      · simp only [applyOp, create_relationship, if_neg hex]
        exact rowsPreserved_append tbl _
  | updateWeight src tgt rt d st tt =>
      have hd : (0 : Int) ≤ d := hop
      exact rowsPreserved_update tbl src tgt rt d st tt hd
  | batch data =>
      exact rowsPreserved_append tbl _

def relTblEx : List RelRow :=
  [{ source_id := "A", source_type := "scholar", target_id := "B",
     target_type := "scholar", relation_type := "coauthor", weight := 2,
     is_custom := false }]

theorem relationship_weight_monotonic_witness :
    RowsPreserved relTblEx
      (applyOp relTblEx (WriteOp.batch [⟨"A", "B", "coauthor", 1⟩])) :=
  relationship_weight_monotonic relTblEx
    (WriteOp.batch [⟨"A", "B", "coauthor", 1⟩]) trivial

/-! ## Claim C10: the show-all override -/

/-- With the coerced hide flag false, `_execute_filter_query` ignores the
compiled conditions entirely whenever the entity fallback yields at least
one id. -/
theorem execute_show_all_entity (env : Env) (conds : List Cond)
    (hne : entityScholarIds env ≠ []) :
    _execute_filter_query env conds false = entityScholarIds env := by
  obtain ⟨x, xs, hx⟩ := List.exists_cons_of_ne_nil hne
  simp only [_execute_filter_query, _should_show_all_scholars, Bool.not_false,
    if_true, hx]
  simp

/-- A store of 101 scholars, each with its entity row. -/
def bigEnv : Env :=
  { scholars := (List.range 101).map (fun i =>
      { scholar_id := "s" ++ toString i, affiliation := "", homepage := "",
        url_picture := "", citedby := 0, hindex := 0, i10index := 0,
        is_main_scholar := 1 })
    entities := (List.range 101).map (fun i =>
      { id := "s" ++ toString i, type := "scholar", name := "s" ++ toString i,
        data := [] })
    interests := []
    relationships := []
    publications := []
    authorship := []
    institutions := []
    scholar_institutions := [] }

/-- A store with one scholar row and no entity rows at all. -/
def envNoEnt : Env :=
  { scholars :=
      [{ scholar_id := "S", affiliation := "", homepage := "", url_picture := "",
         citedby := 5, hindex := 1, i10index := 0, is_main_scholar := 1 }]
    entities := []
    interests := []
    relationships := []
    publications := []
    authorship := []
    institutions := []
    scholar_institutions := [] }

/-- C10 counterexample.  With the hide flag false the candidate set is NOT
the set of all scholar ids in the store: on a 101-scholar store the
entity fallback's `LIMIT 100` drops one id; and on a store with no
scholar-typed entities the compiled query runs, so the result is not even
independent of the supplied predicates (the always-on
`minConnections >= 1` condition empties it). -/
theorem show_all_not_all_scholar_ids :
    bigEnv.scholars.length = 101 ∧
    (_execute_filter_query bigEnv defaultConds false).length = 100 ∧
    _execute_filter_query bigEnv defaultConds false ≠
      bigEnv.scholars.map (fun s => s.scholar_id) ∧
    _execute_filter_query envNoEnt [Cond.scholarIdNotNull] false ≠
      _execute_filter_query envNoEnt
        [Cond.scholarIdNotNull, Cond.minConn (.vInt 1)] false := by
  decide

/-- C10 as amended.  Whenever the coerced `hideNotInterested` flag is false
and the store holds at least one scholar-typed entity, the candidate set is
the first 100 scholar-typed entity ids — independent of every compiled
predicate.  (The scholars-table fallback contributes nothing: its `r[0]`
lookups raise `KeyError` on dict rows; only when no scholar-typed entity
exists does the compiled query itself run.) -/
theorem show_all_override_entity_fallback (env : Env) (conds conds₂ : List Cond)
    (hne : entityScholarIds env ≠ []) :
    _execute_filter_query env conds false = entityScholarIds env ∧
    _execute_filter_query env conds false =
      _execute_filter_query env conds₂ false := by
  have h₁ := execute_show_all_entity env conds hne
  have h₂ := execute_show_all_entity env conds₂ hne
  exact ⟨h₁, h₁.trans h₂.symm⟩

theorem show_all_override_entity_fallback_witness :
    _execute_filter_query envEx [Cond.citedGe (.vInt 1000)] false =
      entityScholarIds envEx ∧
    _execute_filter_query envEx [Cond.citedGe (.vInt 1000)] false =
      _execute_filter_query envEx defaultConds false :=
  show_all_override_entity_fallback envEx [Cond.citedGe (.vInt 1000)]
    defaultConds (by decide)

/-! ## Claim C7: the zero-predicate default -/

/-- An option bag supplying nothing beyond the visibility flag. -/
def onlyVisibilityBag (hide : Bool) : PyDict :=
  [("hideNotInterested", .vBool hide)]

/-- A store with one visible scholar that has no relationships. -/
def envC7 : Env :=
  { scholars :=
      [{ scholar_id := "S", affiliation := "", homepage := "", url_picture := "",
         citedby := 5, hindex := 1, i10index := 0, is_main_scholar := 1 }]
    entities := [{ id := "S", type := "scholar", name := "Sam", data := [] }]
    interests := []
    relationships := []
    publications := []
    authorship := []
    institutions := []
    scholar_institutions := [] }

/-- C7 counterexample.  With `hideNotInterested = true` and zero other
predicates, the candidate set is empty although the store holds a visible
scholar: the compiled query references the nonexistent `is_hidden` column
(and carries the always-on `minConnections >= 1` condition), the execution
error is caught, and `[]` is returned — so a visible scholar is excluded. -/
theorem zero_predicate_excludes_visible_scholar :
    envC7.scholars.map (fun s => s.scholar_id) = ["S"] ∧
    _build_filter_sql (onlyVisibilityBag true) =
      [Cond.scholarIdNotNull, Cond.hideHiddenScholars, Cond.minConn (.vInt 1)] ∧
    _execute_filter_query envC7 (_build_filter_sql (onlyVisibilityBag true)) true = [] := by
  decide

/-- C7 as amended.  If zero predicates are supplied beyond visibility:
with `hideNotInterested = true` the compiled query names the missing
`is_hidden` column, its execution fails, the error is absorbed, and the
candidate set is empty; with `hideNotInterested = false` the show-all
override answers with the first 100 scholar-typed entity ids (not the
scholars-table population — the raw scholars fallback fails on dict rows),
here under the assumption that at least one scholar-typed entity exists. -/
theorem zero_predicate_visibility_candidates (env : Env)
    (hne : entityScholarIds env ≠ []) :
    _execute_filter_query env (_build_filter_sql (onlyVisibilityBag true)) true = [] ∧
    _execute_filter_query env (_build_filter_sql (onlyVisibilityBag false)) false =
      entityScholarIds env := by
  constructor
  · have hconds : _build_filter_sql (onlyVisibilityBag true) =
        [Cond.scholarIdNotNull, Cond.hideHiddenScholars, Cond.minConn (.vInt 1)] := by
      decide
    rw [hconds]
    have hq : queryPrepError
        [Cond.scholarIdNotNull, Cond.hideHiddenScholars, Cond.minConn (.vInt 1)] = true := by
      decide
    simp [_execute_filter_query, _should_show_all_scholars, runRegularQuery,
      evalQuery, hq]
  · exact execute_show_all_entity env (_build_filter_sql (onlyVisibilityBag false)) hne

theorem zero_predicate_visibility_candidates_witness :
    _execute_filter_query envEx (_build_filter_sql (onlyVisibilityBag true)) true = [] ∧
    _execute_filter_query envEx (_build_filter_sql (onlyVisibilityBag false)) false =
      entityScholarIds envEx :=
  zero_predicate_visibility_candidates envEx (by decide)

/-! ## Claim C8: malformed option values -/

def bagC8 : PyDict :=
  [("interestKeyword", .vStr "graph"), ("minCitations", .vStr "many")]

/-- C8 counterexample.  A bag supplying a well-formed `interestKeyword`
together with an uncoercible `minCitations` compiles to the DEFAULT query:
the `TypeError` raised deep in `_build_filter_sql` is caught by the
function-wide handler, which discards every predicate — including the
well-formed `interestKeyword` one — rather than only the malformed one. -/
theorem malformed_option_drops_all_predicates :
    pyTruthy (pyGet bagC8 "interestKeyword" .vNone) = true ∧
    _build_filter_sql bagC8 = defaultConds ∧
    Cond.interestLike "graph" ∉ _build_filter_sql bagC8 := by decide

/-- C8 as amended.  Filter compilation never lets an exception escape:
either the whole body succeeds and the built condition list is returned, or
the caught internal error replaces the ENTIRE condition list with the
default (all supplied predicates dropped together, the filter itself not
aborted).  The `hideNotInterested` value is the one option that is coerced
(string "true"/"false", truthy/falsy). -/
theorem filter_compilation_never_raises :
    (∀ p : PyDict,
      (∃ cs, build_core p = Except.ok cs ∧ _build_filter_sql p = cs) ∨
      (∃ msg, build_core p = Except.error msg ∧ _build_filter_sql p = defaultConds)) ∧
    coerce_hide_param (.vStr "true") = true ∧
    coerce_hide_param (.vStr "True") = true ∧
    coerce_hide_param (.vStr "false") = false ∧
    coerce_hide_param (.vInt 7) = true ∧
    coerce_hide_param (.vInt 0) = false ∧
    coerce_hide_param .vNone = false := by
  refine ⟨?_, by decide, by decide, by decide, by decide, by decide, by decide⟩
  intro p
  cases hb : build_core p with
  | ok cs => exact Or.inl ⟨cs, rfl, by simp [_build_filter_sql, hb]⟩
  | error msg => exact Or.inr ⟨msg, rfl, by simp [_build_filter_sql, hb]⟩
